import Mathlib

/-!
Verification of the AquaCrop daily simulation engine (`solution_aot.py`).

The water-accounting routines (`root_zone_water`, `irrigation`,
`aeration_stress`, `growing_degree_day`) use only rational arithmetic and a
round-to-two-decimals helper, so they are embedded over `ℚ` and stay
executable.  The canopy, stress and yield routines use `exp`, `log`, `sin`
and real powers, so they are embedded over `ℝ`.  The biomass-accumulation
routine's NaN handling is modelled with an explicit IEEE-style value type
carrying `nan` and signed infinities over exact rationals.
-/

namespace AquaCrop

/-- `round(x, 2)` from the Python source: round to two decimal places.
`round` rounds a rational to the nearest integer (exact half-way ties are
immaterial to every property proved below). -/
def round2 (x : ℚ) : ℚ := (round (100 * x) : ℤ) / 100

/-- Soil profile: per-compartment thickness `dz`, cumulative depth `dzsum`,
and volumetric water contents at saturation / field capacity / wilting
point / air dry, mirroring the `prof` object of `solution_aot.py`. -/
structure SoilProfile where
  dz : List ℚ
  dzsum : List ℚ
  th_s : List ℚ
  th_fc : List ℚ
  th_wp : List ℚ
  th_dry : List ℚ

/-- Depletion pair `Dr` (root zone / top soil) returned by `root_zone_water`. -/
structure DrClass where
  Rz : ℚ
  Zt : ℚ

/-- Total-available-water pair `TAW` (root zone / top soil). -/
structure TAWClass where
  Rz : ℚ
  Zt : ℚ

/-- Root-zone water-content summary `thRZ`. -/
structure ThRZClass where
  Act : ℚ
  S : ℚ
  FC : ℚ
  WP : ℚ
  Dry : ℚ
  Aer : ℚ

/-- The tuple `(WrAct, Dr, TAW, thRZ)` returned by `root_zone_water`. -/
structure RootZoneWater where
  WrAct : ℚ
  Dr : DrClass
  TAW : TAWClass
  thRZ : ThRZClass

/-- Floored root depth `rootdepth = round(max(InitCond_Zroot, Crop_Zmin), 2)`
(line 147 of `solution_aot.py`). -/
def rz_rootdepth (InitCond_Zroot Crop_Zmin : ℚ) : ℚ :=
  round2 (max InitCond_Zroot Crop_Zmin)

/-- `comp_sto = np.argwhere(prof.dzsum >= rootdepth).flatten()[0]`: index of
the first compartment whose cumulative depth reaches the root depth.  When no
compartment qualifies (the Python code would raise), `findIdx` returns the
list length. -/
def rz_comp_sto (prof : SoilProfile) (rootdepth : ℚ) : ℕ :=
  prof.dzsum.findIdx (fun d => decide (rootdepth ≤ d))

/-- Fraction of compartment `ii` covered by the zone of depth `rootdepth`
(lines 159-162). -/
def rz_factor (prof : SoilProfile) (rootdepth : ℚ) (ii : ℕ) : ℚ :=
  if prof.dzsum.getD ii 0 > rootdepth then
    1 - ((prof.dzsum.getD ii 0 - rootdepth) / prof.dz.getD ii 0)
  else 1

/-- Accumulated water storage `Σ round(factor * 1000 * w_ii * dz_ii, 2)` over
the first `n` compartments, as in the root-zone loop (lines 157-175). -/
def wr_sum (prof : SoilProfile) (w : ℕ → ℚ) (rootdepth : ℚ) (n : ℕ) : ℚ :=
  ∑ ii in Finset.range n,
    round2 (rz_factor prof rootdepth ii * 1000 * w ii * prof.dz.getD ii 0)

/-- Raw actual root-zone water `WrAct` before the non-negativity clamp. -/
def WrAct_rz_raw (prof : SoilProfile) (th : List ℚ) (rootdepth : ℚ) : ℚ :=
  wr_sum prof (fun ii => th.getD ii 0) rootdepth (rz_comp_sto prof rootdepth + 1)

/-- Actual root-zone water `WrAct` after the clamp `if WrAct < 0: WrAct = 0`
(lines 177-178). -/
def WrAct_rz (prof : SoilProfile) (th : List ℚ) (rootdepth : ℚ) : ℚ :=
  if WrAct_rz_raw prof th rootdepth < 0 then 0 else WrAct_rz_raw prof th rootdepth

/-- Root-zone water at saturation `WrS`. -/
def WrS_rz (prof : SoilProfile) (rootdepth : ℚ) : ℚ :=
  wr_sum prof (fun ii => prof.th_s.getD ii 0) rootdepth (rz_comp_sto prof rootdepth + 1)

/-- Root-zone water at field capacity `WrFC`. -/
def WrFC_rz (prof : SoilProfile) (rootdepth : ℚ) : ℚ :=
  wr_sum prof (fun ii => prof.th_fc.getD ii 0) rootdepth (rz_comp_sto prof rootdepth + 1)

/-- Root-zone water at permanent wilting point `WrWP`. -/
def WrWP_rz (prof : SoilProfile) (rootdepth : ℚ) : ℚ :=
  wr_sum prof (fun ii => prof.th_wp.getD ii 0) rootdepth (rz_comp_sto prof rootdepth + 1)

/-- Root-zone water at air dry `WrDry`. -/
def WrDry_rz (prof : SoilProfile) (rootdepth : ℚ) : ℚ :=
  wr_sum prof (fun ii => prof.th_dry.getD ii 0) rootdepth (rz_comp_sto prof rootdepth + 1)

/-- Root-zone water at the aeration-stress threshold `WrAer` (line 175). -/
def WrAer_rz (prof : SoilProfile) (rootdepth Crop_Aer : ℚ) : ℚ :=
  wr_sum prof (fun ii => prof.th_s.getD ii 0 - Crop_Aer / 100) rootdepth
    (rz_comp_sto prof rootdepth + 1)

/-- Root-zone total available water `TAW.Rz = max(WrFC - WrWP, 0)` (line 186). -/
def TAW_Rz (prof : SoilProfile) (rootdepth : ℚ) : ℚ :=
  max (WrFC_rz prof rootdepth - WrWP_rz prof rootdepth) 0

/-- Root-zone depletion `Dr.Rz = min(WrFC - WrAct, TAW.Rz)` (line 188). -/
def Dr_Rz (prof : SoilProfile) (th : List ℚ) (rootdepth : ℚ) : ℚ :=
  min (WrFC_rz prof rootdepth - WrAct_rz prof th rootdepth) (TAW_Rz prof rootdepth)

/-- Top-soil accumulated storage (lines 215-228); unlike the root-zone loop
the top-soil terms are not rounded. -/
def wr_sum_zt (prof : SoilProfile) (w : ℕ → ℚ) (ztopdepth : ℚ) (n : ℕ) : ℚ :=
  ∑ ii in Finset.range n,
    rz_factor prof ztopdepth ii * 1000 * w ii * prof.dz.getD ii 0

/-- `root_zone_water` (lines 109-243 of `solution_aot.py`): actual and
reference water storages over the root zone, plus top-soil depletion and
total available water when the root depth exceeds the top-soil depth. -/
def root_zone_water (prof : SoilProfile) (InitCond_Zroot : ℚ) (InitCond_th : List ℚ)
    (Soil_zTop Crop_Zmin Crop_Aer : ℚ) : RootZoneWater :=
  let rootdepth := rz_rootdepth InitCond_Zroot Crop_Zmin
  let WrAct := WrAct_rz prof InitCond_th rootdepth
  let thRZ : ThRZClass :=
    { Act := WrAct / (rootdepth * 1000)
      S := WrS_rz prof rootdepth / (rootdepth * 1000)
      FC := WrFC_rz prof rootdepth / (rootdepth * 1000)
      WP := WrWP_rz prof rootdepth / (rootdepth * 1000)
      Dry := WrDry_rz prof rootdepth / (rootdepth * 1000)
      Aer := WrAer_rz prof rootdepth Crop_Aer / (rootdepth * 1000) }
  if rootdepth > Soil_zTop then
    let ztopdepth := round2 Soil_zTop
    let comp_sto := prof.dzsum.countP (fun d => decide (d ≤ ztopdepth))
    let WrAct_Zt0 := wr_sum_zt prof (fun ii => InitCond_th.getD ii 0) ztopdepth comp_sto
    let WrFC_Zt := wr_sum_zt prof (fun ii => prof.th_fc.getD ii 0) ztopdepth comp_sto
    let WrWP_Zt := wr_sum_zt prof (fun ii => prof.th_wp.getD ii 0) ztopdepth comp_sto
    let WrAct_Zt := if WrAct_Zt0 < 0 then 0 else WrAct_Zt0
    let TAW_Zt := max (WrFC_Zt - WrWP_Zt) 0
    { WrAct := WrAct
      Dr := { Rz := Dr_Rz prof InitCond_th rootdepth
              Zt := min (WrFC_Zt - WrAct_Zt) TAW_Zt }
      TAW := { Rz := TAW_Rz prof rootdepth, Zt := TAW_Zt }
      thRZ := thRZ }
  else
    { WrAct := WrAct
      Dr := { Rz := Dr_Rz prof InitCond_th rootdepth
              Zt := Dr_Rz prof InitCond_th rootdepth }
      TAW := { Rz := TAW_Rz prof rootdepth, Zt := TAW_Rz prof rootdepth }
      thRZ := thRZ }

theorem root_zone_water_WrAct_eq (prof : SoilProfile) (Zroot : ℚ) (th : List ℚ)
    (zTop Zmin Aer : ℚ) :
    (root_zone_water prof Zroot th zTop Zmin Aer).WrAct =
      WrAct_rz prof th (rz_rootdepth Zroot Zmin) := by
  by_cases h : rz_rootdepth Zroot Zmin > zTop <;> simp [root_zone_water, h]

theorem root_zone_water_TAW_eq (prof : SoilProfile) (Zroot : ℚ) (th : List ℚ)
    (zTop Zmin Aer : ℚ) :
    (root_zone_water prof Zroot th zTop Zmin Aer).TAW.Rz =
      TAW_Rz prof (rz_rootdepth Zroot Zmin) := by
  by_cases h : rz_rootdepth Zroot Zmin > zTop <;> simp [root_zone_water, h]

theorem root_zone_water_Dr_eq (prof : SoilProfile) (Zroot : ℚ) (th : List ℚ)
    (zTop Zmin Aer : ℚ) :
    (root_zone_water prof Zroot th zTop Zmin Aer).Dr.Rz =
      Dr_Rz prof th (rz_rootdepth Zroot Zmin) := by
  by_cases h : rz_rootdepth Zroot Zmin > zTop <;> simp [root_zone_water, h]

/-- **C1.** For every call to `root_zone_water` with a profile whose cumulative
depths cover the (floored) root depth, the returned actual root-zone water
`WrAct` is nonnegative, the returned root-zone total available water equals
`max(WrFC − WrWP, 0)` (field-capacity water minus wilting-point water), and
the returned root-zone depletion equals `min(WrFC − WrAct, TAW)`. -/
theorem root_zone_water_spec (prof : SoilProfile) (Zroot : ℚ) (th : List ℚ)
    (zTop Zmin Aer : ℚ)
    (hcov : ∃ d ∈ prof.dzsum, rz_rootdepth Zroot Zmin ≤ d) :
    0 ≤ (root_zone_water prof Zroot th zTop Zmin Aer).WrAct ∧
    (root_zone_water prof Zroot th zTop Zmin Aer).TAW.Rz =
      max (WrFC_rz prof (rz_rootdepth Zroot Zmin) -
        WrWP_rz prof (rz_rootdepth Zroot Zmin)) 0 ∧
    (root_zone_water prof Zroot th zTop Zmin Aer).Dr.Rz =
      min (WrFC_rz prof (rz_rootdepth Zroot Zmin) -
          (root_zone_water prof Zroot th zTop Zmin Aer).WrAct)
        ((root_zone_water prof Zroot th zTop Zmin Aer).TAW.Rz) := by
  refine ⟨?_, ?_, ?_⟩
  · rw [root_zone_water_WrAct_eq]
    unfold WrAct_rz
    split
    · exact le_refl 0
    · exact le_of_not_lt (by assumption)
  · rw [root_zone_water_TAW_eq]; rfl
  · rw [root_zone_water_Dr_eq, root_zone_water_WrAct_eq, root_zone_water_TAW_eq]
    rfl

/-- Witness for C1: a two-compartment profile covering the root depth. -/
theorem root_zone_water_spec_witness :
    (∃ d ∈ ([1/10, 1/5] : List ℚ), rz_rootdepth (15/100) (1/10) ≤ d) ∧
    0 ≤ (root_zone_water ⟨[1/10, 1/10], [1/10, 1/5], [1/2, 1/2], [2/5, 2/5],
        [1/5, 1/5], [1/10, 1/10]⟩ (15/100) [3/10, 3/10] (1/10) (1/10) 5).WrAct := by
  have hcov : ∃ d ∈ ([1/10, 1/5] : List ℚ), rz_rootdepth (15/100) (1/10) ≤ d := by
    refine ⟨1/5, by norm_num, ?_⟩
    norm_num [rz_rootdepth, round2, round_eq]
  exact ⟨hcov,
    (root_zone_water_spec ⟨[1/10, 1/10], [1/10, 1/5], [1/2, 1/2], [2/5, 2/5],
      [1/5, 1/5], [1/10, 1/10]⟩ (15/100) [3/10, 3/10] (1/10) (1/10) 5 hcov).1⟩

/-- `growing_degree_day` (lines 77-104 of `solution_aot.py`): daily thermal
time by one of three clamping methods.  For a `GDDmethod` outside `{1,2,3}`
the Python variable `GDD` is never assigned; the embedding returns `0` there
and every theorem assumes a valid method. -/
def growing_degree_day (GDDmethod : ℤ) (Tupp Tbase Tmax Tmin : ℚ) : ℚ :=
  if GDDmethod = 1 then
    let Tmean := (Tmax + Tmin) / 2
    let Tmean := min Tmean Tupp
    let Tmean := max Tmean Tbase
    Tmean - Tbase
  else if GDDmethod = 2 then
    let Tmax := min Tmax Tupp
    let Tmax := max Tmax Tbase
    let Tmin := min Tmin Tupp
    let Tmin := max Tmin Tbase
    let Tmean := (Tmax + Tmin) / 2
    Tmean - Tbase
  else if GDDmethod = 3 then
    let Tmax := min Tmax Tupp
    let Tmax := max Tmax Tbase
    let Tmin := min Tmin Tupp
    let Tmean := (Tmax + Tmin) / 2
    let Tmean := max Tmean Tbase
    Tmean - Tbase
  else 0

/-- **C10.** For every `GDDmethod` in `{1,2,3}` and all temperatures with
`Tbase ≤ Tupp`, `growing_degree_day` returns a value in
`[0, Tupp − Tbase]`, for any ordering of `Tmax` and `Tmin`. -/
theorem growing_degree_day_bounds (GDDmethod : ℤ) (Tupp Tbase Tmax Tmin : ℚ)
    (hm : GDDmethod = 1 ∨ GDDmethod = 2 ∨ GDDmethod = 3) (hT : Tbase ≤ Tupp) :
    0 ≤ growing_degree_day GDDmethod Tupp Tbase Tmax Tmin ∧
    growing_degree_day GDDmethod Tupp Tbase Tmax Tmin ≤ Tupp - Tbase := by
  have h2 : ∀ a b : ℚ, a ≤ Tupp → b ≤ Tupp → (a + b) / 2 ≤ Tupp := by
    intro a b ha hb; linarith
  have h3 : ∀ a b : ℚ, Tbase ≤ a → Tbase ≤ b → Tbase ≤ (a + b) / 2 := by
    intro a b ha hb; linarith
  rcases hm with h | h | h <;> subst h
  · have hval : growing_degree_day 1 Tupp Tbase Tmax Tmin =
        max (min ((Tmax + Tmin) / 2) Tupp) Tbase - Tbase := by
      simp [growing_degree_day]
    rw [hval]
    constructor
    · have := le_max_right (min ((Tmax + Tmin) / 2) Tupp) Tbase
      linarith
    · have := min_le_right ((Tmax + Tmin) / 2) Tupp
      have := max_le this hT
      linarith
  · have hval : growing_degree_day 2 Tupp Tbase Tmax Tmin =
        (max (min Tmax Tupp) Tbase + max (min Tmin Tupp) Tbase) / 2 - Tbase := by
      simp [growing_degree_day]
    rw [hval]
    constructor
    · have := h3 _ _ (le_max_right (min Tmax Tupp) Tbase) (le_max_right (min Tmin Tupp) Tbase)
      linarith
    · have hx : max (min Tmax Tupp) Tbase ≤ Tupp := max_le (min_le_right _ _) hT
      have hn : max (min Tmin Tupp) Tbase ≤ Tupp := max_le (min_le_right _ _) hT
      have := h2 _ _ hx hn
      linarith
  · have hval : growing_degree_day 3 Tupp Tbase Tmax Tmin =
        max ((max (min Tmax Tupp) Tbase + min Tmin Tupp) / 2) Tbase - Tbase := by
      simp [growing_degree_day]
    rw [hval]
    constructor
    · have := le_max_right ((max (min Tmax Tupp) Tbase + min Tmin Tupp) / 2) Tbase
      linarith
    · have hx : max (min Tmax Tupp) Tbase ≤ Tupp := max_le (min_le_right _ _) hT
      have hn : min Tmin Tupp ≤ Tupp := min_le_right _ _
      have := h2 _ _ hx hn
      have := max_le this hT
      linarith

/-- Witness for C10: method 3 with `Tmin` far below base temperature. -/
theorem growing_degree_day_bounds_witness :
    0 ≤ growing_degree_day 3 30 10 25 (-40) ∧
    growing_degree_day 3 30 10 25 (-40) ≤ 30 - 10 :=
  growing_degree_day_bounds 3 30 10 25 (-40) (by norm_num) (by norm_num)

/-- `aeration_stress` (lines 3016-3036 of `solution_aot.py`): aeration stress
coefficient `Ksa_Aer` and updated aeration-day counter.  `thRZ_Act`,
`thRZ_S`, `thRZ_Aer` are the actual / saturation / aeration-threshold
root-zone water contents. -/
def aeration_stress (NewCond_AerDays : ℤ) (Crop_LagAer : ℤ)
    (thRZ_Act thRZ_S thRZ_Aer : ℚ) : ℚ × ℤ :=
  if thRZ_Act > thRZ_Aer then
    let Ksa_Aer :=
      if NewCond_AerDays < Crop_LagAer then
        let stress := 1 - ((thRZ_S - thRZ_Act) / (thRZ_S - thRZ_Aer))
        1 - (((NewCond_AerDays : ℚ) / 3) * stress)
      else
        (thRZ_S - thRZ_Act) / (thRZ_S - thRZ_Aer)
    let NewCond_AerDays' := NewCond_AerDays + 1
    let NewCond_AerDays' := if NewCond_AerDays' > Crop_LagAer then Crop_LagAer
      else NewCond_AerDays'
    (Ksa_Aer, NewCond_AerDays')
  else
    (1, 0)

/-- **C9 counterexample.** With the aeration lag set to 5 days and the day
counter at 4 (nonnegative and below the lag), water content at saturation
and above the aeration threshold, the returned coefficient is `-1/3`,
outside `[0,1]`: the hard-coded divisor 3 in `1 - (AerDays/3)*stress` is not
the lag parameter. -/
theorem aeration_stress_counterexample :
    (aeration_stress 4 5 (1/2) (1/2) (3/10)).1 < 0 := by
  norm_num [aeration_stress]

/-- **C9 (amended).** When the actual root-zone water content is at or below
the aeration threshold, `aeration_stress` returns coefficient 1 and resets
the day counter to 0; and with `thRZ.Aer < thRZ.Act ≤ thRZ.S` and a
nonnegative day counter that is below the lag *and at most 3*, the returned
coefficient lies in `[0,1]`. -/
theorem aeration_stress_spec (AerDays LagAer : ℤ) (Act S Aer : ℚ) :
    (Act ≤ Aer →
      (aeration_stress AerDays LagAer Act S Aer).1 = 1 ∧
      (aeration_stress AerDays LagAer Act S Aer).2 = 0) ∧
    (Aer < Act → Act ≤ S → 0 ≤ AerDays → AerDays < LagAer → AerDays ≤ 3 →
      0 ≤ (aeration_stress AerDays LagAer Act S Aer).1 ∧
      (aeration_stress AerDays LagAer Act S Aer).1 ≤ 1) := by
  constructor
  · intro hle
    have hnot : ¬Act > Aer := not_lt.mpr hle
    simp [aeration_stress, hnot]
  · intro hgt hS hd0 hdlag hd3
    have hAerS : Aer < S := lt_of_lt_of_le hgt hS
    have hden : 0 < S - Aer := by linarith
    have hfrac0 : 0 ≤ (S - Act) / (S - Aer) := div_nonneg (by linarith) (le_of_lt hden)
    have hfrac1 : (S - Act) / (S - Aer) < 1 := by
      rw [div_lt_one hden]; linarith
    have hstress0 : 0 < 1 - (S - Act) / (S - Aer) := by linarith
    have hstress1 : 1 - (S - Act) / (S - Aer) ≤ 1 := by linarith
    have hd0' : (0:ℚ) ≤ (AerDays : ℚ) := by exact_mod_cast hd0
    have hd3' : (AerDays : ℚ) ≤ 3 := by exact_mod_cast hd3
    have hmul0 : 0 ≤ ((AerDays : ℚ) / 3) * (1 - (S - Act) / (S - Aer)) := by
      apply mul_nonneg (by linarith) (le_of_lt hstress0)
    have hmul1 : ((AerDays : ℚ) / 3) * (1 - (S - Act) / (S - Aer)) ≤ 1 := by
      have hq3 : (AerDays : ℚ) / 3 ≤ 1 := by linarith
      calc ((AerDays : ℚ) / 3) * (1 - (S - Act) / (S - Aer))
          ≤ 1 * (1 - (S - Act) / (S - Aer)) :=
            mul_le_mul_of_nonneg_right hq3 (le_of_lt hstress0)
        _ ≤ 1 := by linarith
    have hval : (aeration_stress AerDays LagAer Act S Aer).1 =
        1 - (((AerDays : ℚ) / 3) * (1 - (S - Act) / (S - Aer))) := by
      simp [aeration_stress, hgt, hdlag]
    rw [hval]
    exact ⟨by linarith, by linarith⟩

/-- Witness for C9: both conjuncts instantiated at concrete inputs. -/
theorem aeration_stress_spec_witness :
    (aeration_stress 7 3 (1/4) (1/2) (3/10)).1 = 1 ∧
    0 ≤ (aeration_stress 2 5 (2/5) (1/2) (3/10)).1 := by
  refine ⟨((aeration_stress_spec 7 3 (1/4) (1/2) (3/10)).1 (by norm_num)).1, ?_⟩
  exact ((aeration_stress_spec 2 5 (2/5) (1/2) (3/10)).2
    (by norm_num) (by norm_num) (by norm_num) (by norm_num) (by norm_num)).1

/-- Python list indexing `l[i]` with negative-index wrap-around; an
out-of-range index (which raises in Python) defaults to 0. -/
def pyGet (l : List ℚ) (i : ℤ) : ℚ :=
  if 0 ≤ i then l.getD i.toNat 0 else l.getD ((l.length : ℤ) + i).toNat 0

/-- Irrigation-management parameters consumed by `irrigation`. -/
structure IrrMngtStruct where
  IrrMethod : ℤ
  SMT : List ℚ
  AppEff : ℚ
  MaxIrr : ℚ
  IrrInterval : ℤ
  Schedule : List ℚ
  depth : ℚ
  MaxIrrSeason : ℚ

/-- The slice of the daily condition read and written by `irrigation`. -/
structure IrrCond where
  Zroot : ℚ
  th : List ℚ
  Tpot : ℚ
  Epot : ℚ
  DAP : ℤ
  GrowthStage : ℤ
  TimeStepCounter : ℤ
  IrrCum : ℚ
  Depletion : ℚ
  TAW : ℚ

/-- Irrigation-method dispatch (lines 1130-1187 of `solution_aot.py`),
producing the raw daily depth before the `max(0, Irr)` clamp.  `Depletion`
and `TAW` are the freshly updated state values; a method outside `{0..5}`
(whose Python variable `Irr` would stay unbound) yields 0. -/
def irr_depth (IrrMngt : IrrMngtStruct) (Depletion TAW : ℚ)
    (DAP GrowthStage TimeStepCounter : ℤ) : ℚ :=
  if IrrMngt.IrrMethod = 0 then 0
  else if IrrMngt.IrrMethod = 1 then
    let Dr := Depletion / TAW
    let index := GrowthStage - 1
    if Dr > 1 - pyGet IrrMngt.SMT index / 100 then
      let IrrReq := max 0 Depletion
      let EffAdj := ((100 - IrrMngt.AppEff) + 100) / 100
      let IrrReq := IrrReq * EffAdj
      min IrrMngt.MaxIrr IrrReq
    else 0
  else if IrrMngt.IrrMethod = 2 then
    let Dr := Depletion
    let nDays := DAP - 1
    if nDays % IrrMngt.IrrInterval = 0 then
      let IrrReq := max 0 Dr
      let EffAdj := ((100 - IrrMngt.AppEff) + 100) / 100
      let IrrReq := IrrReq * EffAdj
      min IrrMngt.MaxIrr IrrReq
    else 0
  else if IrrMngt.IrrMethod = 3 then
    min IrrMngt.MaxIrr (pyGet IrrMngt.Schedule TimeStepCounter)
  else if IrrMngt.IrrMethod = 4 then 0
  else if IrrMngt.IrrMethod = 5 then
    min IrrMngt.MaxIrr IrrMngt.depth
  else 0

/-- First half of `irrigation` (lines 1101-1197 of `solution_aot.py`):
during the growing season, refresh the depletion bookkeeping from
`root_zone_water` and dispatch on the irrigation method, clamping the depth
with `Irr = max(0, Irr)`; outside the growing season, zero the depth and the
cumulative counter. -/
def irrigation_pre (prof : SoilProfile) (Soil_zTop Crop_Zmin Crop_Aer : ℚ)
    (IrrMngt : IrrMngtStruct) (InitCond : IrrCond) (GrowingSeason : Bool)
    (Rain Runoff : ℚ) : IrrCond × ℚ :=
  if GrowingSeason then
    let rzw := root_zone_water prof InitCond.Zroot InitCond.th Soil_zTop Crop_Zmin Crop_Aer
    let AbvFc :=
      if rzw.thRZ.Act > rzw.thRZ.FC then
        (rzw.thRZ.Act - rzw.thRZ.FC) * 1000 * max InitCond.Zroot Crop_Zmin
      else 0
    let WCadj := InitCond.Tpot + InitCond.Epot - Rain + Runoff - AbvFc
    let NewCond := { InitCond with
      Depletion := rzw.Dr.Rz + WCadj
      TAW := rzw.TAW.Rz
      GrowthStage := if InitCond.DAP = 1 then 1 else InitCond.GrowthStage }
    let Irr := irr_depth IrrMngt NewCond.Depletion NewCond.TAW NewCond.DAP
      NewCond.GrowthStage NewCond.TimeStepCounter
    (NewCond, max 0 Irr)
  else
    ({ InitCond with IrrCum := 0 }, 0)

/-- Second half of `irrigation` (lines 1199-1205): cap the daily depth by the
remaining seasonal allowance and accumulate the cumulative counter. -/
def irrigation_post (IrrMngt : IrrMngtStruct) (step : IrrCond × ℚ) : IrrCond × ℚ :=
  let Irr :=
    if step.1.IrrCum + step.2 > IrrMngt.MaxIrrSeason then
      max 0 (IrrMngt.MaxIrrSeason - step.1.IrrCum)
    else step.2
  ({ step.1 with IrrCum := step.1.IrrCum + Irr }, Irr)

/-- `irrigation` (lines 1101-1205 of `solution_aot.py`). -/
def irrigation (prof : SoilProfile) (Soil_zTop Crop_Zmin Crop_Aer : ℚ)
    (IrrMngt : IrrMngtStruct) (InitCond : IrrCond) (GrowingSeason : Bool)
    (Rain Runoff : ℚ) : IrrCond × ℚ :=
  irrigation_post IrrMngt
    (irrigation_pre prof Soil_zTop Crop_Zmin Crop_Aer IrrMngt InitCond
      GrowingSeason Rain Runoff)

theorem irr_depth_le_MaxIrr (IrrMngt : IrrMngtStruct) (Depletion TAW : ℚ)
    (DAP GrowthStage TimeStepCounter : ℤ) (hM : 0 ≤ IrrMngt.MaxIrr) :
    irr_depth IrrMngt Depletion TAW DAP GrowthStage TimeStepCounter ≤ IrrMngt.MaxIrr := by
  unfold irr_depth
  dsimp only
  split_ifs <;> first | exact hM | exact min_le_left _ _

theorem irrigation_pre_spec (prof : SoilProfile) (Soil_zTop Crop_Zmin Crop_Aer : ℚ)
    (IrrMngt : IrrMngtStruct) (InitCond : IrrCond) (GrowingSeason : Bool)
    (Rain Runoff : ℚ) (hM : 0 ≤ IrrMngt.MaxIrr) (hS : 0 ≤ IrrMngt.MaxIrrSeason)
    (hC : InitCond.IrrCum ≤ IrrMngt.MaxIrrSeason) :
    0 ≤ (irrigation_pre prof Soil_zTop Crop_Zmin Crop_Aer IrrMngt InitCond
        GrowingSeason Rain Runoff).2 ∧
    (irrigation_pre prof Soil_zTop Crop_Zmin Crop_Aer IrrMngt InitCond
        GrowingSeason Rain Runoff).2 ≤ IrrMngt.MaxIrr ∧
    (irrigation_pre prof Soil_zTop Crop_Zmin Crop_Aer IrrMngt InitCond
        GrowingSeason Rain Runoff).1.IrrCum ≤ IrrMngt.MaxIrrSeason := by
  cases GrowingSeason with
  | false => exact ⟨le_refl 0, hM, hS⟩
  | true =>
    refine ⟨le_max_left 0 _, max_le hM (irr_depth_le_MaxIrr _ _ _ _ _ _ hM), hC⟩

theorem irrigation_post_spec (IrrMngt : IrrMngtStruct) (p : IrrCond × ℚ)
    (hM : 0 ≤ IrrMngt.MaxIrr) (h0 : 0 ≤ p.2) (h1 : p.2 ≤ IrrMngt.MaxIrr)
    (h2 : p.1.IrrCum ≤ IrrMngt.MaxIrrSeason) :
    0 ≤ (irrigation_post IrrMngt p).2 ∧
    (irrigation_post IrrMngt p).2 ≤ IrrMngt.MaxIrr ∧
    (irrigation_post IrrMngt p).1.IrrCum ≤ IrrMngt.MaxIrrSeason := by
  unfold irrigation_post
  dsimp only
  split_ifs with h
  · refine ⟨le_max_left 0 _, ?_, ?_⟩
    · rcases le_or_lt (IrrMngt.MaxIrrSeason - p.1.IrrCum) 0 with h3 | h3
      · rw [max_eq_left h3]; exact hM
      · rw [max_eq_right (le_of_lt h3)]; linarith
    · rcases le_or_lt (IrrMngt.MaxIrrSeason - p.1.IrrCum) 0 with h3 | h3
      · rw [max_eq_left h3]; linarith
      · rw [max_eq_right (le_of_lt h3)]; linarith
  · exact ⟨h0, h1, by linarith [not_lt.mp h]⟩

/-- **C8.** For every call to `irrigation` with `MaxIrr ≥ 0`,
`MaxIrrSeason ≥ 0` and initial cumulative irrigation
`IrrCum ≤ MaxIrrSeason`, the returned daily depth `Irr` satisfies
`0 ≤ Irr ≤ MaxIrr` for every irrigation method in `{0,1,2,3,4,5}`, and the
updated cumulative counter never exceeds `MaxIrrSeason`. -/
theorem irrigation_spec (prof : SoilProfile) (Soil_zTop Crop_Zmin Crop_Aer : ℚ)
    (IrrMngt : IrrMngtStruct) (InitCond : IrrCond) (GrowingSeason : Bool)
    (Rain Runoff : ℚ)
    (hmeth : 0 ≤ IrrMngt.IrrMethod ∧ IrrMngt.IrrMethod ≤ 5)
    (hM : 0 ≤ IrrMngt.MaxIrr) (hS : 0 ≤ IrrMngt.MaxIrrSeason)
    (hC : InitCond.IrrCum ≤ IrrMngt.MaxIrrSeason) :
    0 ≤ (irrigation prof Soil_zTop Crop_Zmin Crop_Aer IrrMngt InitCond
        GrowingSeason Rain Runoff).2 ∧
    (irrigation prof Soil_zTop Crop_Zmin Crop_Aer IrrMngt InitCond
        GrowingSeason Rain Runoff).2 ≤ IrrMngt.MaxIrr ∧
    (irrigation prof Soil_zTop Crop_Zmin Crop_Aer IrrMngt InitCond
        GrowingSeason Rain Runoff).1.IrrCum ≤ IrrMngt.MaxIrrSeason := by
  obtain ⟨h0, h1, h2⟩ := irrigation_pre_spec prof Soil_zTop Crop_Zmin Crop_Aer
    IrrMngt InitCond GrowingSeason Rain Runoff hM hS hC
  exact irrigation_post_spec IrrMngt _ hM h0 h1 h2

/-- Witness for C8: fixed-depth method (5) with a depth above `MaxIrr` and a
seasonal allowance nearly exhausted. -/
theorem irrigation_spec_witness :
    0 ≤ (irrigation ⟨[1/10], [1/10], [1/2], [2/5], [1/5], [1/10]⟩ (1/10) (1/10) 5
        ⟨5, [], 100, 20, 1, [], 30, 50⟩
        ⟨3/10, [7/10], 0, 0, 1, 1, 0, 48, 0, 0⟩ true 0 0).2 ∧
    (irrigation ⟨[1/10], [1/10], [1/2], [2/5], [1/5], [1/10]⟩ (1/10) (1/10) 5
        ⟨5, [], 100, 20, 1, [], 30, 50⟩
        ⟨3/10, [7/10], 0, 0, 1, 1, 0, 48, 0, 0⟩ true 0 0).2 ≤ 20 ∧
    (irrigation ⟨[1/10], [1/10], [1/2], [2/5], [1/5], [1/10]⟩ (1/10) (1/10) 5
        ⟨5, [], 100, 20, 1, [], 30, 50⟩
        ⟨3/10, [7/10], 0, 0, 1, 1, 0, 48, 0, 0⟩ true 0 0).1.IrrCum ≤ 50 :=
  irrigation_spec ⟨[1/10], [1/10], [1/2], [2/5], [1/5], [1/10]⟩ (1/10) (1/10) 5
    ⟨5, [], 100, 20, 1, [], 30, 50⟩
    ⟨3/10, [7/10], 0, 0, 1, 1, 0, 48, 0, 0⟩ true 0 0
    (by norm_num) (by norm_num) (by norm_num) (by norm_num)

noncomputable section

/-- Ground-shading adjustment applied by `canopy_cover` (lines 2506-2510 of
`solution_aot.py`): `CCadj = 1.72*CC - CC^2 + 0.3*CC^3`. -/
def canopy_cover_CCadj (CC : ℝ) : ℝ :=
  1.72 * CC - CC ^ 2 + 0.3 * CC ^ 3

/-- **C4 counterexample.** At full canopy cover `CC = 1` the ground-shading
adjustment is `1.02`, which is outside `[0,1]`. -/
theorem canopy_cover_CCadj_counterexample :
    canopy_cover_CCadj 1 = 1.02 ∧ ¬ canopy_cover_CCadj 1 ≤ 1 := by
  norm_num [canopy_cover_CCadj]

/-- **C4 (amended).** For every canopy-cover value `CC ∈ [0,1]` the
ground-shading adjustment `1.72*CC - CC^2 + 0.3*CC^3` lies in `[0, 1.02]`
(the maximum `1.02` is attained at `CC = 1`; the value exceeds 1 for `CC`
close to 1). -/
theorem canopy_cover_CCadj_bounds (CC : ℝ) (h0 : 0 ≤ CC) (h1 : CC ≤ 1) :
    0 ≤ canopy_cover_CCadj CC ∧ canopy_cover_CCadj CC ≤ 1.02 := by
  unfold canopy_cover_CCadj
  constructor
  · have hq : 0 ≤ 0.3 * CC ^ 2 - CC + 1.72 := by nlinarith [sq_nonneg (CC - 5/3)]
    nlinarith [mul_nonneg h0 hq]
  · have hq : 0 ≤ 0.3 * CC ^ 2 - 0.7 * CC + 1.02 := by nlinarith [sq_nonneg (CC - 7/6)]
    nlinarith [mul_nonneg (sub_nonneg.mpr h1) hq]

/-- Witness for C4 (amended) at `CC = 9/10`. -/
theorem canopy_cover_CCadj_bounds_witness :
    0 ≤ canopy_cover_CCadj (9/10) ∧ canopy_cover_CCadj (9/10) ≤ 1.02 :=
  canopy_cover_CCadj_bounds (9/10) (by norm_num) (by norm_num)

/-- Exponential growth stage of `cc_development` (line 1953 of
`solution_aot.py`): `CC = CCo * exp(CGC * dt)`. -/
def cc_growth_exponential (CCo CGC dt : ℝ) : ℝ :=
  CCo * Real.exp (CGC * dt)

/-- Exponential decay stage of `cc_development` (line 1956):
`CC = CCx - 0.25 * (CCx / CCo) * CCx * exp(-CGC * dt)`. -/
def cc_growth_decay (CCo CCx CGC dt : ℝ) : ℝ :=
  CCx - 0.25 * (CCx / CCo) * CCx * Real.exp (-(CGC * dt))

/-- `cc_development` (lines 1913-1979 of `solution_aot.py`): canopy cover at
the end of the day, piecewise in the growth mode (exponential growth below
`CCx/2`, exponential decay towards the asymptote above), exponential decline
in the decline mode, clamped to `[0,1]`.  A mode string other than
`"Growth"`/`"Decline"` (for which the Python `CC` stays unbound) yields 0. -/
def cc_development (CCo CCx CGC CDC dt : ℝ) (Mode : String) (CCx0 : ℝ) : ℝ :=
  let CC :=
    if Mode = "Growth" then
      let CC := cc_growth_exponential CCo CGC dt
      let CC := if CC > CCx / 2 then cc_growth_decay CCo CCx CGC dt else CC
      if CC > CCx then CCx else CC
    else if Mode = "Decline" then
      if CCx < 0.001 then 0
      else
        CCx * (1 - 0.05 *
          (Real.exp (dt * CDC * 3.33 * ((CCx + 2.29) / (CCx0 + 2.29)) / (CCx + 2.29)) - 1))
    else 0
  if CC > 1 then 1 else if CC < 0 then 0 else CC

/-- `cc_required_time` (lines 1984-2034 of `solution_aot.py`): time needed to
reach yesterday's canopy cover under the current growth (`"CGC"`) or decline
(`"CDC"`) coefficient, by closed-form inversion of the growth/decline
equations. -/
def cc_required_time (CCprev CCo CCx CGC CDC : ℝ) (Mode : String) : ℝ :=
  if Mode = "CGC" then
    let CGCx :=
      if CCprev ≤ CCx / 2 then Real.log (CCprev / CCo)
      else Real.log ((0.25 * CCx * CCx / CCo) / (CCx - CCprev))
    CGCx / CGC
  else if Mode = "CDC" then
    (Real.log (1 + (1 - CCprev / CCx) / 0.05)) / (CDC / CCx)
  else 0

/-- **C6.** The two growth-phase formulas of `cc_development` agree at the
switch point: for `CCo > 0`, `CCx > 0`, whenever the exponential-growth
formula equals `CCx/2`, the exponential-decay formula also evaluates to
`CCx/2`, so the piecewise canopy-growth function is continuous at
`CC = CCx/2`. -/
theorem cc_development_switch_continuous (CCo CCx CGC dt : ℝ)
    (hCCo : 0 < CCo) (hCCx : 0 < CCx)
    (hswitch : cc_growth_exponential CCo CGC dt = CCx / 2) :
    cc_growth_decay CCo CCx CGC dt = CCx / 2 := by
  unfold cc_growth_exponential at hswitch
  unfold cc_growth_decay
  rw [Real.exp_neg]
  have hE : Real.exp (CGC * dt) ≠ 0 := Real.exp_ne_zero _
  have hCCo' : CCo ≠ 0 := ne_of_gt hCCo
  field_simp
  nlinarith [hswitch]

/-- Witness for C6: `CCo = CCx/2` and `dt = 0`, where `exp(0) = 1`. -/
theorem cc_development_switch_continuous_witness :
    cc_growth_decay (1/2) 1 1 0 = 1 / 2 :=
  cc_development_switch_continuous (1/2) 1 1 0 (by norm_num) (by norm_num)
    (by simp [cc_growth_exponential, Real.exp_zero])

/-- **C7.** Round-trip of canopy growth inversion: for all parameters with
`0 < CCo < CCprev < CCx ≤ 1` and `CGC > 0`, feeding the time returned by
`cc_required_time(CCprev, CCo, CCx, CGC, CDC, "CGC")` back into
`cc_development(CCo, CCx, CGC, CDC, ·, "Growth", CCx0)` returns exactly
`CCprev`. -/
theorem cc_round_trip (CCprev CCo CCx CGC CDC CCx0 : ℝ)
    (h1 : 0 < CCo) (h2 : CCo < CCprev) (h3 : CCprev < CCx) (h4 : CCx ≤ 1)
    (h5 : 0 < CGC) :
    cc_development CCo CCx CGC CDC
      (cc_required_time CCprev CCo CCx CGC CDC "CGC") "Growth" CCx0 = CCprev := by
  have hCGC : CGC ≠ 0 := ne_of_gt h5
  have hCCo : CCo ≠ 0 := ne_of_gt h1
  have hprev : 0 < CCprev := lt_trans h1 h2
  have hCCx : 0 < CCx := lt_trans hprev h3
  have hsub : 0 < CCx - CCprev := by linarith
  by_cases hc : CCprev ≤ CCx / 2
  · have ht : cc_required_time CCprev CCo CCx CGC CDC "CGC" =
        Real.log (CCprev / CCo) / CGC := by
      simp [cc_required_time, hc]
    have hE : Real.exp (CGC * (Real.log (CCprev / CCo) / CGC)) = CCprev / CCo := by
      rw [mul_comm, div_mul_cancel₀ _ hCGC]
      exact Real.exp_log (div_pos hprev h1)
    have hCC : cc_growth_exponential CCo CGC (Real.log (CCprev / CCo) / CGC) = CCprev := by
      unfold cc_growth_exponential
      rw [hE]
      field_simp
    rw [ht]
    unfold cc_development
    rw [if_pos rfl]
    dsimp only
    rw [hCC, if_neg (not_lt.mpr hc), if_neg (not_lt.mpr (le_of_lt h3)),
      if_neg (not_lt.mpr (by linarith : CCprev ≤ 1)),
      if_neg (not_lt.mpr (le_of_lt hprev))]
  · push_neg at hc
    have hA : (0:ℝ) < (0.25 * CCx * CCx / CCo) / (CCx - CCprev) := by
      apply div_pos (div_pos (by nlinarith) h1) hsub
    have ht : cc_required_time CCprev CCo CCx CGC CDC "CGC" =
        Real.log ((0.25 * CCx * CCx / CCo) / (CCx - CCprev)) / CGC := by
      simp [cc_required_time, not_le.mpr hc]
    have hE : Real.exp (CGC * (Real.log ((0.25 * CCx * CCx / CCo) / (CCx - CCprev)) / CGC)) =
        (0.25 * CCx * CCx / CCo) / (CCx - CCprev) := by
      rw [mul_comm, div_mul_cancel₀ _ hCGC]
      exact Real.exp_log hA
    have hCC : cc_growth_exponential CCo CGC
        (Real.log ((0.25 * CCx * CCx / CCo) / (CCx - CCprev)) / CGC) =
        0.25 * CCx * CCx / (CCx - CCprev) := by
      unfold cc_growth_exponential
      rw [hE]
      field_simp
      ring
    have hcond : 0.25 * CCx * CCx / (CCx - CCprev) > CCx / 2 := by
      rw [gt_iff_lt, div_lt_div_iff₀ (by norm_num) hsub]
      nlinarith
    have hdecay : cc_growth_decay CCo CCx CGC
        (Real.log ((0.25 * CCx * CCx / CCo) / (CCx - CCprev)) / CGC) = CCprev := by
      unfold cc_growth_decay
      rw [Real.exp_neg, hE]
      have hnum : 0.25 * CCx * CCx / CCo ≠ 0 := by positivity
      field_simp
      ring
    rw [ht]
    unfold cc_development
    rw [if_pos rfl]
    dsimp only
    rw [hCC, if_pos hcond, hdecay, if_neg (not_lt.mpr (le_of_lt h3)),
      if_neg (not_lt.mpr (by linarith : CCprev ≤ 1)),
      if_neg (not_lt.mpr (le_of_lt hprev))]

/-- Witness for C7 at `CCo = 1/10 < CCprev = 7/10 < CCx = 4/5 ≤ 1`, `CGC = 1`
(decay-stage inversion branch). -/
theorem cc_round_trip_witness :
    cc_development (1/10) (4/5) 1 1
      (cc_required_time (7/10) (1/10) (4/5) 1 1 "CGC") "Growth" (4/5) = 7/10 :=
  cc_round_trip (7/10) (1/10) (4/5) 1 1 (4/5)
    (by norm_num) (by norm_num) (by norm_num) (by norm_num) (by norm_num)

/-- Crop parameters consumed by the stress, temperature and harvest-index
routines.  Depth-like parameters (`Zmin`, `Aer`) are rational because they
feed the executable `root_zone_water`; counters are integers. -/
structure Crop where
  p_up : Fin 4 → ℝ
  p_lo : Fin 4 → ℝ
  ETadj : ℤ
  beta : ℝ
  fshape_w : Fin 4 → ℝ
  Zmin : ℚ
  Aer : ℚ
  HIstartCD : ℤ
  CropType : ℤ
  Determinant : ℤ
  FloweringCD : ℤ
  CCmin : ℝ
  exc : ℝ
  HI0 : ℝ
  dHI0 : ℝ
  dHI_pre : ℝ
  a_HI : ℝ
  b_HI : ℝ
  CanopyDevEndCD : ℤ
  HIendCD : ℤ
  YldFormCD : ℤ
  PolHeatStress : ℤ
  PolColdStress : ℤ
  Tmax_lo : ℝ
  Tmax_up : ℝ
  Tmin_lo : ℝ
  Tmin_up : ℝ
  fshape_b : ℝ

/-- Reference-evapotranspiration threshold adjustment (lines 1864-1865 of
`solution_aot.py`): `p + 0.04*(5 - Et0) * log10(10 - 9*p)`. -/
def ws_ET_adjust (p Et0 : ℝ) : ℝ :=
  p + (0.04 * (5 - Et0)) * Real.logb 10 (10 - 9 * p)

/-- Effective upper depletion thresholds of `water_stress` (lines 1857-1875):
`Crop.p_up` optionally Et0-adjusted for the first three stress types,
tightened for early senescence, then clamped to `[0,1]`. -/
def pUpEff (c : Crop) (tEarlySen Et0 : ℝ) (beta : Bool) : Fin 4 → ℝ :=
  fun i =>
    let p1 := if c.ETadj = 1 ∧ (i : ℕ) < 3 then ws_ET_adjust (c.p_up i) Et0 else c.p_up i
    let p2 := if beta = true ∧ tEarlySen > 0 ∧ (i : ℕ) = 2 then p1 * (1 - c.beta / 100)
      else p1
    min (max p2 0) 1

/-- Effective lower depletion thresholds of `water_stress` (lines 1858-1875). -/
def pLoEff (c : Crop) (Et0 : ℝ) : Fin 4 → ℝ :=
  fun i =>
    let p1 := if c.ETadj = 1 ∧ (i : ℕ) < 3 then ws_ET_adjust (c.p_lo i) Et0 else c.p_lo i
    min (max p1 0) 1

/-- Relative depletion `Drel` (lines 1878-1888): 0 below the upper threshold,
1 above the lower threshold, linear in `Dr/TAW` in between. -/
def ws_Drel (pu pl Dr TAW : ℝ) : ℝ :=
  if Dr ≤ pu * TAW then 0
  else if pu * TAW < Dr ∧ Dr < pl * TAW then 1 - ((pl - Dr / TAW) / (pl - pu))
  else if Dr ≥ pl * TAW then 1
  else 0

/-- Depletion-to-coefficient transform (line 1893):
`Ks = 1 - (exp(Drel*k) - 1) / (exp(k) - 1)`. -/
def ws_Ks (Drel k : ℝ) : ℝ :=
  1 - ((Real.exp (Drel * k) - 1) / (Real.exp k - 1))

/-- Water-stress coefficient bundle returned by `water_stress`. -/
structure KswClass where
  Exp : ℝ
  Sto : ℝ
  Sen : ℝ
  Pol : ℝ
  StoLin : ℝ

/-- `water_stress` (lines 1852-1908 of `solution_aot.py`). -/
def water_stress (c : Crop) (tEarlySen : ℝ) (Dr TAW Et0 : ℝ) (beta : Bool) : KswClass :=
  let pu := pUpEff c tEarlySen Et0 beta
  let pl := pLoEff c Et0
  let Drel : Fin 4 → ℝ := fun i => ws_Drel (pu i) (pl i) Dr TAW
  { Exp := ws_Ks (Drel 0) (c.fshape_w 0)
    Sto := ws_Ks (Drel 1) (c.fshape_w 1)
    Sen := ws_Ks (Drel 2) (c.fshape_w 2)
    Pol := 1 - Drel 3
    StoLin := 1 - Drel 1 }

theorem ws_Drel_mem (pu pl Dr TAW : ℝ) :
    0 ≤ ws_Drel pu pl Dr TAW ∧ ws_Drel pu pl Dr TAW ≤ 1 := by
  unfold ws_Drel
  split_ifs with h1 h2 h3
  · norm_num
  · obtain ⟨h2a, h2b⟩ := h2
    rcases lt_trichotomy TAW 0 with hT | hT | hT
    · have hdu : Dr / TAW < pu := by
        rw [div_lt_iff_of_neg hT]; linarith [h2a]
      have hdl : pl < Dr / TAW := by
        rw [lt_div_iff_of_neg hT]; linarith [h2b]
      have hlt : pl < pu := lt_trans hdl hdu
      have hne : pl - pu ≠ 0 := by linarith
      have hne' : pu - pl ≠ 0 := by linarith
      have heq : (pl - Dr / TAW) / (pl - pu) = (Dr / TAW - pl) / (pu - pl) := by
        rw [div_eq_div_iff hne hne']; ring
      rw [heq]
      constructor
      · have : (Dr / TAW - pl) / (pu - pl) ≤ 1 := by
          rw [div_le_one (by linarith)]; linarith
        linarith
      · have : 0 ≤ (Dr / TAW - pl) / (pu - pl) :=
          div_nonneg (by linarith) (by linarith)
        linarith
    · subst hT
      simp only [mul_zero] at h2a h2b
      linarith
    · have hdu : pu < Dr / TAW := by
        rw [lt_div_iff hT]; linarith [h2a]
      have hdl : Dr / TAW < pl := by
        rw [div_lt_iff hT]; linarith [h2b]
      have hlt : pu < pl := lt_trans hdu hdl
      constructor
      · have : (pl - Dr / TAW) / (pl - pu) ≤ 1 := by
          rw [div_le_one (by linarith)]; linarith
        linarith
      · have : 0 ≤ (pl - Dr / TAW) / (pl - pu) :=
          div_nonneg (by linarith) (by linarith)
        linarith
  · norm_num
  · norm_num

theorem ws_Ks_mem (d k : ℝ) (hd0 : 0 ≤ d) (hd1 : d ≤ 1) (hk : k ≠ 0) :
    0 ≤ ws_Ks d k ∧ ws_Ks d k ≤ 1 := by
  unfold ws_Ks
  rcases lt_or_gt_of_ne hk with hneg | hpos
  · have hek : Real.exp k < 1 := by
      calc Real.exp k < Real.exp 0 := Real.exp_lt_exp.mpr hneg
        _ = 1 := Real.exp_zero
    have hdk_le : d * k ≤ 0 := mul_nonpos_of_nonneg_of_nonpos hd0 (le_of_lt hneg)
    have hdk_ge : k ≤ d * k := by nlinarith
    have he1 : Real.exp (d * k) ≤ 1 := by
      calc Real.exp (d * k) ≤ Real.exp 0 := Real.exp_le_exp.mpr hdk_le
        _ = 1 := Real.exp_zero
    have he2 : Real.exp k ≤ Real.exp (d * k) := Real.exp_le_exp.mpr hdk_ge
    have hne : Real.exp k - 1 ≠ 0 := by linarith
    have heq : (Real.exp (d * k) - 1) / (Real.exp k - 1) =
        (1 - Real.exp (d * k)) / (1 - Real.exp k) := by
      rw [div_eq_div_iff hne (by linarith)]; ring
    rw [heq]
    constructor
    · have : (1 - Real.exp (d * k)) / (1 - Real.exp k) ≤ 1 := by
        rw [div_le_one (by linarith)]; linarith
      linarith
    · have : 0 ≤ (1 - Real.exp (d * k)) / (1 - Real.exp k) :=
        div_nonneg (by linarith) (by linarith)
      linarith
  · have hek : 1 < Real.exp k := by
      calc (1:ℝ) = Real.exp 0 := Real.exp_zero.symm
        _ < Real.exp k := Real.exp_lt_exp.mpr hpos
    have hdk_ge : 0 ≤ d * k := mul_nonneg hd0 (le_of_lt hpos)
    have hdk_le : d * k ≤ k := by nlinarith
    have he1 : 1 ≤ Real.exp (d * k) := by
      calc (1:ℝ) = Real.exp 0 := Real.exp_zero.symm
        _ ≤ Real.exp (d * k) := Real.exp_le_exp.mpr hdk_ge
    have he2 : Real.exp (d * k) ≤ Real.exp k := Real.exp_le_exp.mpr hdk_le
    constructor
    · have : (Real.exp (d * k) - 1) / (Real.exp k - 1) ≤ 1 := by
        rw [div_le_one (by linarith)]; linarith
      linarith
    · have : 0 ≤ (Real.exp (d * k) - 1) / (Real.exp k - 1) :=
        div_nonneg (by linarith) (by linarith)
      linarith

theorem ws_Ks_at_zero (k : ℝ) : ws_Ks 0 k = 1 := by
  simp [ws_Ks, Real.exp_zero]

theorem ws_Ks_at_one (k : ℝ) (hk : k ≠ 0) : ws_Ks 1 k = 0 := by
  have : Real.exp k - 1 ≠ 0 := by
    intro h
    apply hk
    apply Real.exp_injective
    rw [Real.exp_zero]
    linarith
  simp [ws_Ks, div_self this]

theorem ws_Drel_of_le (pu pl Dr TAW : ℝ) (h : Dr ≤ pu * TAW) :
    ws_Drel pu pl Dr TAW = 0 := by
  simp [ws_Drel, h]

theorem ws_Drel_of_ge (pu pl Dr TAW : ℝ) (hT : 0 < TAW) (h : pl * TAW ≤ Dr)
    (hlt : pu < pl) : ws_Drel pu pl Dr TAW = 1 := by
  have h1 : ¬ Dr ≤ pu * TAW := by
    push_neg
    calc pu * TAW < pl * TAW := by nlinarith
      _ ≤ Dr := h
  have h2 : ¬ (pu * TAW < Dr ∧ Dr < pl * TAW) := by
    rintro ⟨-, hb⟩
    linarith
  simp [ws_Drel, h1, h2, h]

theorem ws_coeff_spec (pu pl Dr TAW k : ℝ) (hT : 0 < TAW) (hk : k ≠ 0) :
    (0 ≤ ws_Ks (ws_Drel pu pl Dr TAW) k ∧ ws_Ks (ws_Drel pu pl Dr TAW) k ≤ 1) ∧
    (Dr / TAW ≤ pu → ws_Ks (ws_Drel pu pl Dr TAW) k = 1) ∧
    (pl ≤ Dr / TAW → pu < pl → ws_Ks (ws_Drel pu pl Dr TAW) k = 0) := by
  obtain ⟨hd0, hd1⟩ := ws_Drel_mem pu pl Dr TAW
  refine ⟨ws_Ks_mem _ _ hd0 hd1 hk, ?_, ?_⟩
  · intro h
    rw [div_le_iff₀ hT] at h
    rw [ws_Drel_of_le pu pl Dr TAW h, ws_Ks_at_zero]
  · intro h hlt
    rw [le_div_iff₀ hT] at h
    rw [ws_Drel_of_ge pu pl Dr TAW hT h hlt, ws_Ks_at_one _ hk]

theorem ws_lin_spec (pu pl Dr TAW : ℝ) (hT : 0 < TAW) :
    (0 ≤ 1 - ws_Drel pu pl Dr TAW ∧ 1 - ws_Drel pu pl Dr TAW ≤ 1) ∧
    (Dr / TAW ≤ pu → 1 - ws_Drel pu pl Dr TAW = 1) ∧
    (pl ≤ Dr / TAW → pu < pl → 1 - ws_Drel pu pl Dr TAW = 0) := by
  obtain ⟨hd0, hd1⟩ := ws_Drel_mem pu pl Dr TAW
  refine ⟨⟨by linarith, by linarith⟩, ?_, ?_⟩
  · intro h
    rw [div_le_iff₀ hT] at h
    rw [ws_Drel_of_le pu pl Dr TAW h]
    norm_num
  · intro h hlt
    rw [le_div_iff₀ hT] at h
    rw [ws_Drel_of_ge pu pl Dr TAW hT h hlt]
    norm_num

theorem water_stress_Pol_mem (c : Crop) (tEarlySen Dr TAW Et0 : ℝ) (beta : Bool) :
    0 ≤ (water_stress c tEarlySen Dr TAW Et0 beta).Pol ∧
    (water_stress c tEarlySen Dr TAW Et0 beta).Pol ≤ 1 := by
  have h := ws_Drel_mem (pUpEff c tEarlySen Et0 beta 3) (pLoEff c Et0 3) Dr TAW
  constructor
  · show 0 ≤ 1 - ws_Drel (pUpEff c tEarlySen Et0 beta 3) (pLoEff c Et0 3) Dr TAW
    linarith [h.2]
  · show 1 - ws_Drel (pUpEff c tEarlySen Et0 beta 3) (pLoEff c Et0 3) Dr TAW ≤ 1
    linarith [h.1]

/-- A concrete crop for instantiating the water-stress theorems: both
depletion thresholds at `1/2` for every stress type, no Et0 adjustment,
unit shape parameters. -/
def wsTestCrop : Crop where
  p_up := fun _ => 1/2
  p_lo := fun _ => 1/2
  ETadj := 0
  beta := 0
  fshape_w := fun _ => 1
  Zmin := 1/10
  Aer := 5
  HIstartCD := 0
  CropType := 3
  Determinant := 1
  FloweringCD := 10
  CCmin := 0
  exc := 0
  HI0 := 1/2
  dHI0 := 10
  dHI_pre := 0
  a_HI := 1
  b_HI := 1
  CanopyDevEndCD := 0
  HIendCD := 0
  YldFormCD := 0
  PolHeatStress := 0
  PolColdStress := 0
  Tmax_lo := 0
  Tmax_up := 0
  Tmin_lo := 0
  Tmin_up := 0
  fshape_b := 1

/-- **C2 counterexample.** With upper and lower thresholds both equal to
`1/2` (so `0 ≤ p_up ≤ p_lo ≤ 1`), `TAW = 1 > 0` and depletion `Dr = 1/2`
exactly at the common threshold, the relative depletion is at (hence at or
above) the lower threshold, yet the stomatal coefficient is 1, not 0: the
"no stress" branch `Dr ≤ p_up*TAW` wins. -/
theorem water_stress_counterexample :
    pUpEff wsTestCrop 0 5 false 1 = 1/2 ∧ pLoEff wsTestCrop 5 1 = 1/2 ∧
    pLoEff wsTestCrop 5 1 ≤ (1/2 : ℝ) / 1 ∧
    (water_stress wsTestCrop 0 (1/2) 1 5 false).Sto = 1 := by
  have hpu : pUpEff wsTestCrop 0 5 false 1 = 1/2 := by
    norm_num [pUpEff, wsTestCrop]
  have hpl : pLoEff wsTestCrop 5 1 = 1/2 := by
    norm_num [pLoEff, wsTestCrop]
  refine ⟨hpu, hpl, by rw [hpl]; norm_num, ?_⟩
  have hSto : (water_stress wsTestCrop 0 (1/2) 1 5 false).Sto =
      ws_Ks (ws_Drel (pUpEff wsTestCrop 0 5 false 1) (pLoEff wsTestCrop 5 1)
        (1/2) 1) (wsTestCrop.fshape_w 1) := rfl
  rw [hSto, hpu, hpl, ws_Drel_of_le _ _ _ _ (by norm_num), ws_Ks_at_zero]

/-- **C2 (amended).** For every call to `water_stress` with `TAW > 0` and
nonzero shape parameters, each returned coefficient (`Exp`, `Sto`, `Sen`,
`Pol`, `StoLin`) lies in `[0,1]`; each equals 1 when the relative depletion
`Dr/TAW` is at or below the effective upper threshold (in particular when
depletion is 0); and each equals 0 when `Dr/TAW` is at or above the
effective lower threshold, *provided the effective upper threshold is
strictly below the lower one* (when the two coincide and `Dr/TAW` sits
exactly on them, the no-stress branch wins and the coefficient is 1). -/
theorem water_stress_spec (c : Crop) (tEarlySen Dr TAW Et0 : ℝ) (beta : Bool)
    (hT : 0 < TAW) (hk : ∀ i : Fin 4, c.fshape_w i ≠ 0) :
    ((0 ≤ (water_stress c tEarlySen Dr TAW Et0 beta).Exp ∧
        (water_stress c tEarlySen Dr TAW Et0 beta).Exp ≤ 1) ∧
      (0 ≤ (water_stress c tEarlySen Dr TAW Et0 beta).Sto ∧
        (water_stress c tEarlySen Dr TAW Et0 beta).Sto ≤ 1) ∧
      (0 ≤ (water_stress c tEarlySen Dr TAW Et0 beta).Sen ∧
        (water_stress c tEarlySen Dr TAW Et0 beta).Sen ≤ 1) ∧
      (0 ≤ (water_stress c tEarlySen Dr TAW Et0 beta).Pol ∧
        (water_stress c tEarlySen Dr TAW Et0 beta).Pol ≤ 1) ∧
      (0 ≤ (water_stress c tEarlySen Dr TAW Et0 beta).StoLin ∧
        (water_stress c tEarlySen Dr TAW Et0 beta).StoLin ≤ 1)) ∧
    ((Dr / TAW ≤ pUpEff c tEarlySen Et0 beta 0 →
        (water_stress c tEarlySen Dr TAW Et0 beta).Exp = 1) ∧
      (Dr / TAW ≤ pUpEff c tEarlySen Et0 beta 1 →
        (water_stress c tEarlySen Dr TAW Et0 beta).Sto = 1) ∧
      (Dr / TAW ≤ pUpEff c tEarlySen Et0 beta 2 →
        (water_stress c tEarlySen Dr TAW Et0 beta).Sen = 1) ∧
      (Dr / TAW ≤ pUpEff c tEarlySen Et0 beta 3 →
        (water_stress c tEarlySen Dr TAW Et0 beta).Pol = 1) ∧
      (Dr / TAW ≤ pUpEff c tEarlySen Et0 beta 1 →
        (water_stress c tEarlySen Dr TAW Et0 beta).StoLin = 1)) ∧
    ((pLoEff c Et0 0 ≤ Dr / TAW → pUpEff c tEarlySen Et0 beta 0 < pLoEff c Et0 0 →
        (water_stress c tEarlySen Dr TAW Et0 beta).Exp = 0) ∧
      (pLoEff c Et0 1 ≤ Dr / TAW → pUpEff c tEarlySen Et0 beta 1 < pLoEff c Et0 1 →
        (water_stress c tEarlySen Dr TAW Et0 beta).Sto = 0) ∧
      (pLoEff c Et0 2 ≤ Dr / TAW → pUpEff c tEarlySen Et0 beta 2 < pLoEff c Et0 2 →
        (water_stress c tEarlySen Dr TAW Et0 beta).Sen = 0) ∧
      (pLoEff c Et0 3 ≤ Dr / TAW → pUpEff c tEarlySen Et0 beta 3 < pLoEff c Et0 3 →
        (water_stress c tEarlySen Dr TAW Et0 beta).Pol = 0) ∧
      (pLoEff c Et0 1 ≤ Dr / TAW → pUpEff c tEarlySen Et0 beta 1 < pLoEff c Et0 1 →
        (water_stress c tEarlySen Dr TAW Et0 beta).StoLin = 0)) := by
  have h0 := ws_coeff_spec (pUpEff c tEarlySen Et0 beta 0) (pLoEff c Et0 0)
    Dr TAW (c.fshape_w 0) hT (hk 0)
  have h1 := ws_coeff_spec (pUpEff c tEarlySen Et0 beta 1) (pLoEff c Et0 1)
    Dr TAW (c.fshape_w 1) hT (hk 1)
  have h2 := ws_coeff_spec (pUpEff c tEarlySen Et0 beta 2) (pLoEff c Et0 2)
    Dr TAW (c.fshape_w 2) hT (hk 2)
  have h3 := ws_lin_spec (pUpEff c tEarlySen Et0 beta 3) (pLoEff c Et0 3) Dr TAW hT
  have h1l := ws_lin_spec (pUpEff c tEarlySen Et0 beta 1) (pLoEff c Et0 1) Dr TAW hT
  exact ⟨⟨h0.1, h1.1, h2.1, h3.1, h1l.1⟩,
    ⟨h0.2.1, h1.2.1, h2.2.1, h3.2.1, h1l.2.1⟩,
    ⟨h0.2.2, h1.2.2, h2.2.2, h3.2.2, h1l.2.2⟩⟩

/-- Witness for C2 (amended): bounds of the expansion coefficient at a
concrete crop with `TAW = 1` and nonzero shape parameters. -/
theorem water_stress_spec_witness :
    0 ≤ (water_stress wsTestCrop 0 (1/2) 1 5 false).Exp ∧
    (water_stress wsTestCrop 0 (1/2) 1 5 false).Exp ≤ 1 :=
  (water_stress_spec wsTestCrop 0 (1/2) 1 5 false (by norm_num)
    (fun i => by simp [wsTestCrop])).1.1

/-- Temperature-stress coefficient pair returned by `temperature_stress`. -/
structure KstClass where
  PolH : ℝ
  PolC : ℝ

/-- Logistic pollination-stress curve of `temperature_stress` (lines
3802-3804, 3818-3820), with `KsPol_up = 1` and `KsPol_lo = 0.001`:
`(KsPol_up*KsPol_lo) / (KsPol_lo + (KsPol_up - KsPol_lo)*exp(-fshape_b*(1 - Trel)))`. -/
def ts_logistic (fshape_b Trel : ℝ) : ℝ :=
  (1 * 0.001) / (0.001 + (1 - 0.001) * Real.exp (-fshape_b * (1 - Trel)))

/-- `temperature_stress` (lines 3750-3822 of `solution_aot.py`): heat and
cold pollination-stress coefficients via a logistic curve between the
temperature thresholds.  For a `PolHeatStress`/`PolColdStress` flag outside
`{0,1}` the Python attribute keeps the `KstClass` no-stress initial value 1
(`KstClass` lives outside `src/`); the theorems assume a flag in `{0,1}`. -/
def temperature_stress (c : Crop) (Tmax Tmin : ℝ) : KstClass :=
  let PolH :=
    if c.PolHeatStress = 0 then 1
    else if c.PolHeatStress = 1 then
      if Tmax ≤ c.Tmax_lo then 1
      else if Tmax ≥ c.Tmax_up then 0
      else ts_logistic c.fshape_b ((Tmax - c.Tmax_lo) / (c.Tmax_up - c.Tmax_lo))
    else 1
  let PolC :=
    if c.PolColdStress = 0 then 1
    else if c.PolColdStress = 1 then
      if Tmin ≥ c.Tmin_up then 1
      else if Tmin ≤ c.Tmin_lo then 0
      else ts_logistic c.fshape_b ((c.Tmin_up - Tmin) / (c.Tmin_up - c.Tmin_lo))
    else 1
  { PolH := PolH, PolC := PolC }

theorem ts_logistic_mem (b x : ℝ) : 0 ≤ ts_logistic b x ∧ ts_logistic b x ≤ 1 := by
  unfold ts_logistic
  have hE : 0 < Real.exp (-b * (1 - x)) := Real.exp_pos _
  have hden : 0 < 0.001 + (1 - 0.001) * Real.exp (-b * (1 - x)) := by nlinarith
  constructor
  · apply div_nonneg (by norm_num) (le_of_lt hden)
  · rw [div_le_one hden]
    nlinarith

theorem temperature_stress_mem (c : Crop) (Tmax Tmin : ℝ) :
    (0 ≤ (temperature_stress c Tmax Tmin).PolH ∧
      (temperature_stress c Tmax Tmin).PolH ≤ 1) ∧
    (0 ≤ (temperature_stress c Tmax Tmin).PolC ∧
      (temperature_stress c Tmax Tmin).PolC ≤ 1) := by
  unfold temperature_stress
  dsimp only
  constructor
  · split_ifs <;> first | exact ts_logistic_mem _ _ | constructor <;> norm_num
  · split_ifs <;> first | exact ts_logistic_mem _ _ | constructor <;> norm_num

/-- The slice of the daily condition read and written by `harvest_index`
and its sub-routines.  `Zroot` and `th` are rational because they feed the
executable `root_zone_water`. -/
structure HICond where
  Zroot : ℚ
  th : List ℚ
  tEarlySen : ℝ
  DAP : ℤ
  DelayedCDs : ℤ
  YieldForm : Bool
  PreAdj : Bool
  CC : ℝ
  B : ℝ
  B_NS : ℝ
  Fpre : ℝ
  Fpol : ℝ
  Fpost : ℝ
  fpost_upp : ℝ
  fpost_dwn : ℝ
  sCor1 : ℝ
  sCor2 : ℝ
  HI : ℝ
  HIadj : ℝ
  HIref : ℝ

/-- `HIadj_pre_anthesis` (lines 3827-3888 of `solution_aot.py`):
biomass-ratio-driven sinusoidal pre-anthesis adjustment `Fpre`, pinned to 0
when no green canopy remains. -/
def HIadj_pre_anthesis (InitCond : HICond) (Crop_dHI_pre : ℝ) : HICond :=
  let Fpre :=
    if Crop_dHI_pre > 0 then
      let Br := InitCond.B / InitCond.B_NS
      let Br_range := Real.log Crop_dHI_pre / 5.62
      let Br_upp : ℝ := 1
      let Br_low := 1 - Br_range
      let Br_top := Br_upp - Br_range / 3
      let ratio_low := (Br - Br_low) / (Br_top - Br_low)
      let ratio_upp := (Br - Br_top) / (Br_upp - Br_top)
      if Br ≥ Br_low ∧ Br < Br_top then
        1 + ((1 + Real.sin ((1.5 - ratio_low) * Real.pi)) / 2) * (Crop_dHI_pre / 100)
      else if Br > Br_top ∧ Br ≤ Br_upp then
        1 + ((1 + Real.sin ((0.5 + ratio_upp) * Real.pi)) / 2) * (Crop_dHI_pre / 100)
      else 1
    else 1
  let Fpre := if InitCond.CC ≤ 0.01 then 0 else Fpre
  { InitCond with Fpre := Fpre }

/-- Fractional-flowering curve value of `HIadj_pollination` (lines
3938-3956): `0.00558*exp(0.63*log(tPct)) - 0.000969*tPct - 0.00383` with
`tPct` capped at 100. -/
def hi_frac_flow_F (t : ℤ) (Crop_FloweringCD : ℤ) : ℝ :=
  let tPct := 100 * ((t : ℝ) / (Crop_FloweringCD : ℝ))
  let tPct := if tPct > 100 then 100 else tPct
  0.00558 * Real.exp (0.63 * Real.log tPct) - 0.000969 * tPct - 0.00383

/-- Fractional flowering accumulated between days `HIt-1` and `HIt`
(lines 3929-3967 of `solution_aot.py`).  For `HIt < 0` (unreachable from
`harvest_index`, whose guard requires `HIt > 0`; the Python variable
`FracFlow` would stay unbound) the value is 0. -/
def hi_FracFlow (Crop_FloweringCD : ℤ) (HIt : ℤ) : ℝ :=
  if HIt = 0 then 0
  else if HIt > 0 then
    let t1 := HIt - 1
    let F1 := if t1 = 0 then 0 else hi_frac_flow_F t1 Crop_FloweringCD
    let F1 := if F1 < 0 then 0 else F1
    let t2 := HIt
    let F2 := if t2 = 0 then 0 else hi_frac_flow_F t2 Crop_FloweringCD
    let F2 := if F2 < 0 then 0 else F2
    if |F1 - F2| < 0.0000001 then 0
    else 100 * ((F1 + F2) / 2) / (Crop_FloweringCD : ℝ)
  else 0

theorem hi_FracFlow_nonneg (FloweringCD HIt : ℤ) (hFC : 0 ≤ FloweringCD) :
    0 ≤ hi_FracFlow FloweringCD HIt := by
  have hFCr : (0:ℝ) ≤ (FloweringCD : ℝ) := by exact_mod_cast hFC
  unfold hi_FracFlow
  dsimp only
  split_ifs <;>
    first
      | (apply div_nonneg _ hFCr
         apply mul_nonneg (by norm_num)
         apply div_nonneg _ (by norm_num)
         linarith)
      | norm_num

/-- `HIadj_pollination` (lines 3893-3984 of `solution_aot.py`): updated
pollinated fraction `Fpol`, accumulating a flowering-progress-weighted daily
increment scaled by the worst of the water/heat/cold pollination stresses,
capped at 1. -/
def HIadj_pollination (InitCond_CC InitCond_Fpol : ℝ) (Crop_FloweringCD : ℤ)
    (Crop_CCmin Crop_exc : ℝ) (Ksw : KswClass) (Kst : KstClass) (HIt : ℤ) : ℝ :=
  let FracFlow := hi_FracFlow Crop_FloweringCD HIt
  let dFpol :=
    if InitCond_CC < Crop_CCmin then 0
    else min Ksw.Pol (min Kst.PolC Kst.PolH) * FracFlow * (1 + Crop_exc / 100)
  let NewCond_Fpol := InitCond_Fpol + dFpol
  if NewCond_Fpol > 1 then 1 else NewCond_Fpol

theorem HIadj_pollination_mem (CC Fpol : ℝ) (FloweringCD : ℤ) (CCmin exc : ℝ)
    (Ksw : KswClass) (Kst : KstClass) (HIt : ℤ)
    (hF0 : 0 ≤ Fpol) (hF1 : Fpol ≤ 1) (hFC : 0 ≤ FloweringCD)
    (hPol : 0 ≤ Ksw.Pol) (hPC : 0 ≤ Kst.PolC) (hPH : 0 ≤ Kst.PolH)
    (hexc : 0 ≤ exc) :
    0 ≤ HIadj_pollination CC Fpol FloweringCD CCmin exc Ksw Kst HIt ∧
    HIadj_pollination CC Fpol FloweringCD CCmin exc Ksw Kst HIt ≤ 1 := by
  have hX : 0 ≤ min Ksw.Pol (min Kst.PolC Kst.PolH) *
      hi_FracFlow FloweringCD HIt * (1 + exc / 100) :=
    mul_nonneg (mul_nonneg (le_min hPol (le_min hPC hPH))
      (hi_FracFlow_nonneg FloweringCD HIt hFC)) (by linarith)
  unfold HIadj_pollination
  dsimp only
  constructor <;> split_ifs <;> first | linarith | norm_num

/-- `HIadj_post_anthesis` (lines 3989-4072 of `solution_aot.py`):
post-anthesis adjustment `Fpost` from two accumulators, one driven by
leaf-expansion stress over the canopy-development window, one by stomatal
stress over the yield-formation window, blended by relative duration. -/
def HIadj_post_anthesis (InitCond : HICond) (c : Crop) (Ksw : KswClass) : HICond :=
  let tmax1 := c.CanopyDevEndCD - c.HIstartCD
  let DAP := InitCond.DAP - InitCond.DelayedCDs
  let cond1 := DAP ≤ c.CanopyDevEndCD + 1 ∧ tmax1 > 0 ∧ InitCond.Fpre > 0.99 ∧
    InitCond.CC > 0.001 ∧ c.a_HI > 0
  let sCor1 :=
    if cond1 then InitCond.sCor1 + (1 + (1 - Ksw.Exp) / c.a_HI) / (tmax1 : ℝ)
    else InitCond.sCor1
  let fpost_upp :=
    if cond1 then ((tmax1 : ℝ) / ((DAP - 1 - c.HIstartCD : ℤ) : ℝ)) * sCor1
    else InitCond.fpost_upp
  let tmax2 := c.YldFormCD
  let cond2 := DAP ≤ c.HIendCD + 1 ∧ tmax2 > 0 ∧ InitCond.Fpre > 0.99 ∧
    InitCond.CC > 0.001 ∧ c.b_HI > 0
  let sCor2 :=
    if cond2 then
      InitCond.sCor2 + Ksw.Sto ^ (0.1 : ℝ) * (1 - (1 - Ksw.Sto) / c.b_HI) / (tmax2 : ℝ)
    else InitCond.sCor2
  let fpost_dwn :=
    if cond2 then ((tmax2 : ℝ) / ((DAP - 1 - c.HIstartCD : ℤ) : ℝ)) * sCor2
    else InitCond.fpost_dwn
  let Fpost :=
    if tmax1 = 0 ∧ tmax2 = 0 then 1
    else if tmax2 = 0 then fpost_upp
    else if tmax1 = 0 then fpost_dwn
    else if tmax1 ≤ tmax2 then
      fpost_dwn * (((tmax1 : ℝ) * fpost_upp + ((tmax2 - tmax1 : ℤ) : ℝ)) / (tmax2 : ℝ))
    else
      fpost_upp * (((tmax2 : ℝ) * fpost_dwn + ((tmax1 - tmax2 : ℤ) : ℝ)) / (tmax1 : ℝ))
  { InitCond with
    sCor1 := sCor1
    fpost_upp := fpost_upp
    sCor2 := sCor2
    fpost_dwn := fpost_dwn
    Fpost := Fpost }

/-- Stress-capped harvest index (lines 4183-4194 of `solution_aot.py`):
the pre/post multiplier `Fpre*Fpost` capped at `1 + dHI0/100`, applied to
the smaller of the reference index `HIi` and the pollination ceiling
`HImax`. -/
def hi_HIadj (c : Crop) (Fpre Fpost HIi HImax : ℝ) : ℝ :=
  let HImult := Fpre * Fpost
  let HImult := if HImult > 1 + c.dHI0 / 100 then 1 + c.dHI0 / 100 else HImult
  if HImax ≥ HIi then HImult * HIi else HImult * HImax

theorem hi_HIadj_bound (c : Crop) (Fpre Fpost HIi HImax : ℝ)
    (hHIi0 : 0 ≤ HIi) (hHIi1 : HIi ≤ c.HI0)
    (hmax0 : 0 ≤ HImax) (hmax1 : HImax ≤ c.HI0)
    (hHI0 : 0 ≤ c.HI0) (hd : 0 ≤ c.dHI0) :
    hi_HIadj c Fpre Fpost HIi HImax ≤ c.HI0 * (1 + c.dHI0 / 100) := by
  unfold hi_HIadj
  dsimp only
  have hcap : (0:ℝ) ≤ 1 + c.dHI0 / 100 := by linarith
  have hm : (if Fpre * Fpost > 1 + c.dHI0 / 100 then 1 + c.dHI0 / 100 else Fpre * Fpost) ≤
      1 + c.dHI0 / 100 := by
    split_ifs with h
    · exact le_refl _
    · exact le_of_not_lt h
  have key : ∀ v : ℝ, 0 ≤ v → v ≤ c.HI0 →
      (if Fpre * Fpost > 1 + c.dHI0 / 100 then 1 + c.dHI0 / 100 else Fpre * Fpost) * v ≤
        c.HI0 * (1 + c.dHI0 / 100) := by
    intro v hv0 hv1
    calc (if Fpre * Fpost > 1 + c.dHI0 / 100 then 1 + c.dHI0 / 100 else Fpre * Fpost) * v
        ≤ (1 + c.dHI0 / 100) * v := mul_le_mul_of_nonneg_right hm hv0
      _ ≤ (1 + c.dHI0 / 100) * c.HI0 := mul_le_mul_of_nonneg_left hv1 hcap
      _ = c.HI0 * (1 + c.dHI0 / 100) := mul_comm _ _
  by_cases h : HImax ≥ HIi
  · rw [if_pos h]
    exact key HIi hHIi0 hHIi1
  · rw [if_neg h]
    exact key HImax hmax0 hmax1

/-- Root/tuber and fruit/grain branch of `harvest_index` inside the
yield-formation window (lines 4153-4194 of `solution_aot.py`): pre-anthesis
adjustment on first entry, pollination adjustment for fruit/grain crops
inside the flowering window, post-anthesis adjustment, and the capped
harvest index `hi_HIadj`. -/
def hi_yf_body (c : Crop) (InitCond : HICond) (Ksw : KswClass) (Kst : KstClass)
    (HIt : ℤ) : HICond :=
  let NewCond1 :=
    if InitCond.PreAdj = false then
      { HIadj_pre_anthesis InitCond c.dHI_pre with PreAdj := true }
    else InitCond
  let NewCond2 :=
    if c.CropType = 3 ∧ HIt > 0 ∧ HIt ≤ c.FloweringCD then
      { NewCond1 with
        Fpol := HIadj_pollination NewCond1.CC NewCond1.Fpol
          c.FloweringCD c.CCmin c.exc Ksw Kst HIt }
    else NewCond1
  let HImax := if c.CropType = 3 then NewCond2.Fpol * c.HI0 else c.HI0
  let NewCond3 := if HIt > 0 then HIadj_post_anthesis NewCond2 c Ksw else NewCond2
  { NewCond3 with
    HI := InitCond.HIref
    HIadj := hi_HIadj c NewCond3.Fpre NewCond3.Fpost InitCond.HIref HImax }

theorem hi_yf_body_HIadj_bound (c : Crop) (InitCond : HICond) (Ksw : KswClass)
    (Kst : KstClass) (HIt : ℤ)
    (hHIref0 : 0 ≤ InitCond.HIref) (hHIref1 : InitCond.HIref ≤ c.HI0)
    (hHI0 : 0 ≤ c.HI0) (hdHI0 : 0 ≤ c.dHI0)
    (hFpol0 : 0 ≤ InitCond.Fpol) (hFpol1 : InitCond.Fpol ≤ 1)
    (hexc : 0 ≤ c.exc)
    (hPol : 0 ≤ Ksw.Pol) (hPC : 0 ≤ Kst.PolC) (hPH : 0 ≤ Kst.PolH) :
    (hi_yf_body c InitCond Ksw Kst HIt).HIadj ≤ c.HI0 * (1 + c.dHI0 / 100) := by
  have hn1 : (if InitCond.PreAdj = false then
      { HIadj_pre_anthesis InitCond c.dHI_pre with PreAdj := true }
      else InitCond).Fpol = InitCond.Fpol := by
    split_ifs <;> rfl
  unfold hi_yf_body
  dsimp only
  apply hi_HIadj_bound c _ _ _ _ hHIref0 hHIref1 ?_ ?_ hHI0 hdHI0
  · -- 0 ≤ HImax
    by_cases h3 : c.CropType = 3
    · rw [if_pos h3]
      by_cases hwin : HIt > 0 ∧ HIt ≤ c.FloweringCD
      · rw [if_pos ⟨h3, hwin⟩]
        dsimp only
        rw [hn1]
        exact mul_nonneg (HIadj_pollination_mem _ _ _ _ _ _ _ _ hFpol0 hFpol1
          (by omega) hPol hPC hPH hexc).1 hHI0
      · rw [if_neg (fun hcon => hwin hcon.2), hn1]
        exact mul_nonneg hFpol0 hHI0
    · rw [if_neg h3]
      exact hHI0
  · -- HImax ≤ HI0
    by_cases h3 : c.CropType = 3
    · rw [if_pos h3]
      by_cases hwin : HIt > 0 ∧ HIt ≤ c.FloweringCD
      · rw [if_pos ⟨h3, hwin⟩]
        dsimp only
        rw [hn1]
        refine le_trans (mul_le_mul_of_nonneg_right ?_ hHI0) (le_of_eq (one_mul _))
        exact (HIadj_pollination_mem _ _ _ _ _ _ _ _ hFpol0 hFpol1
          (by omega) hPol hPC hPH hexc).2
      · rw [if_neg (fun hcon => hwin hcon.2), hn1]
        refine le_trans (mul_le_mul_of_nonneg_right hFpol1 hHI0) (le_of_eq (one_mul _))
    · rw [if_neg h3]

/-- Growing-season body of `harvest_index` (lines 4120-4209 of
`solution_aot.py`).  For a `CropType` outside `{1,2,3}` the Python local
`HIadj` would stay unbound inside the yield-formation window; the embedding
keeps the previous value there and every theorem assumes a valid crop
type. -/
def harvest_index_gs (prof : SoilProfile) (Soil_zTop : ℚ) (c : Crop)
    (InitCond : HICond) (Et0 Tmax Tmin : ℝ) : HICond :=
  let rzw := root_zone_water prof InitCond.Zroot InitCond.th Soil_zTop c.Zmin c.Aer
  let Dr : ℝ :=
    if ((rzw.Dr.Rz : ℝ) / (rzw.TAW.Rz : ℝ)) ≤ ((rzw.Dr.Zt : ℝ) / (rzw.TAW.Zt : ℝ))
    then (rzw.Dr.Rz : ℝ) else (rzw.Dr.Zt : ℝ)
  let TAW : ℝ :=
    if ((rzw.Dr.Rz : ℝ) / (rzw.TAW.Rz : ℝ)) ≤ ((rzw.Dr.Zt : ℝ) / (rzw.TAW.Zt : ℝ))
    then (rzw.TAW.Rz : ℝ) else (rzw.TAW.Zt : ℝ)
  let Ksw := water_stress c InitCond.tEarlySen Dr TAW Et0 true
  let Kst := temperature_stress c Tmax Tmin
  let HIi := InitCond.HIref
  let HIt := InitCond.DAP - InitCond.DelayedCDs - c.HIstartCD - 1
  if InitCond.YieldForm = true ∧ HIt ≥ 0 then
    if c.CropType = 2 ∨ c.CropType = 3 then
      hi_yf_body c InitCond Ksw Kst HIt
    else if c.CropType = 1 then
      { InitCond with HI := HIi, HIadj := HIi }
    else
      { InitCond with HI := HIi }
  else
    { InitCond with HI := InitCond.HI, HIadj := InitCond.HIadj }

/-- `harvest_index` (lines 4077-4216 of `solution_aot.py`): harvest-index
build-up during the growing season, zeroed outside it. -/
def harvest_index (prof : SoilProfile) (Soil_zTop : ℚ) (c : Crop)
    (InitCond : HICond) (Et0 Tmax Tmin : ℝ) (GrowingSeason : Bool) : HICond :=
  if GrowingSeason then harvest_index_gs prof Soil_zTop c InitCond Et0 Tmax Tmin
  else { InitCond with HI := 0, HIadj := 0 }

/-- A concrete daily condition for instantiating the harvest-index
theorems: mid-season state with `HIref = 1/4`, `Fpol = 1/2`, previous
`HIadj = 0`. -/
def hiTestCond : HICond where
  Zroot := 1/10
  th := [3/10]
  tEarlySen := 0
  DAP := 1
  DelayedCDs := 0
  YieldForm := false
  PreAdj := false
  CC := 1/2
  B := 0
  B_NS := 0
  Fpre := 1
  Fpol := 1/2
  Fpost := 1
  fpost_upp := 1
  fpost_dwn := 1
  sCor1 := 0
  sCor2 := 0
  HI := 0
  HIadj := 0
  HIref := 1/4

/-- **C5.** During the growing season, with a valid crop type and
pollination-stress flags, physically meaningful harvest-index parameters
(`0 ≤ HIref ≤ HI0`, `0 ≤ HI0`, `0 ≤ dHI0`, `0 ≤ Fpol ≤ 1`, `0 ≤ exc`), and
a previous adjusted harvest index already within the cap, the adjusted
harvest index returned by `harvest_index` never exceeds
`HI0 * (1 + dHI0/100)`; and outside the yield-formation window
(`YieldForm` false or `HIt < 0`) both `HI` and `HIadj` keep their previous
values, so the harvest index never decreases there. -/
theorem harvest_index_spec (prof : SoilProfile) (Soil_zTop : ℚ) (c : Crop)
    (InitCond : HICond) (Et0 Tmax Tmin : ℝ)
    (hCT : c.CropType = 1 ∨ c.CropType = 2 ∨ c.CropType = 3)
    (hHeat : c.PolHeatStress = 0 ∨ c.PolHeatStress = 1)
    (hCold : c.PolColdStress = 0 ∨ c.PolColdStress = 1)
    (hHIref0 : 0 ≤ InitCond.HIref) (hHIref1 : InitCond.HIref ≤ c.HI0)
    (hHI0 : 0 ≤ c.HI0) (hdHI0 : 0 ≤ c.dHI0)
    (hFpol0 : 0 ≤ InitCond.Fpol) (hFpol1 : InitCond.Fpol ≤ 1)
    (hexc : 0 ≤ c.exc)
    (hprev : InitCond.HIadj ≤ c.HI0 * (1 + c.dHI0 / 100)) :
    (harvest_index prof Soil_zTop c InitCond Et0 Tmax Tmin true).HIadj ≤
      c.HI0 * (1 + c.dHI0 / 100) ∧
    ((InitCond.YieldForm = false ∨
        InitCond.DAP - InitCond.DelayedCDs - c.HIstartCD - 1 < 0) →
      (harvest_index prof Soil_zTop c InitCond Et0 Tmax Tmin true).HI =
        InitCond.HI ∧
      (harvest_index prof Soil_zTop c InitCond Et0 Tmax Tmin true).HIadj =
        InitCond.HIadj) := by
  have hgs : harvest_index prof Soil_zTop c InitCond Et0 Tmax Tmin true =
      harvest_index_gs prof Soil_zTop c InitCond Et0 Tmax Tmin := by
    simp [harvest_index]
  rw [hgs]
  by_cases hyf : InitCond.YieldForm = true ∧
      InitCond.DAP - InitCond.DelayedCDs - c.HIstartCD - 1 ≥ 0
  · constructor
    · rcases hCT with h1 | h23
      · have hne : ¬(c.CropType = 2 ∨ c.CropType = 3) := by rw [h1]; norm_num
        have hval : harvest_index_gs prof Soil_zTop c InitCond Et0 Tmax Tmin =
            { InitCond with HI := InitCond.HIref, HIadj := InitCond.HIref } := by
          unfold harvest_index_gs
          dsimp only
          rw [if_pos hyf, if_neg hne, if_pos h1]
        rw [hval]
        show InitCond.HIref ≤ c.HI0 * (1 + c.dHI0 / 100)
        nlinarith
      · unfold harvest_index_gs
        dsimp only
        rw [if_pos hyf, if_pos h23]
        exact hi_yf_body_HIadj_bound c InitCond _ _ _ hHIref0 hHIref1 hHI0 hdHI0
          hFpol0 hFpol1 hexc (water_stress_Pol_mem c _ _ _ _ _).1
          (temperature_stress_mem c Tmax Tmin).2.1
          (temperature_stress_mem c Tmax Tmin).1.1
    · intro hout
      exfalso
      rcases hout with h | h
      · rw [hyf.1] at h
        exact absurd h (by simp)
      · exact absurd hyf.2 (not_le.mpr h)
  · have hval : harvest_index_gs prof Soil_zTop c InitCond Et0 Tmax Tmin =
        { InitCond with HI := InitCond.HI, HIadj := InitCond.HIadj } := by
      unfold harvest_index_gs
      dsimp only
      rw [if_neg hyf]
    rw [hval]
    exact ⟨hprev, fun _ => ⟨rfl, rfl⟩⟩

/-- Witness for C5 at a concrete fruit/grain crop and state inside the
growing season but outside the yield-formation window. -/
theorem harvest_index_spec_witness :
    (harvest_index ⟨[1/10], [1/10], [1/2], [2/5], [1/5], [1/10]⟩ (1/10)
      wsTestCrop hiTestCond 5 20 10 true).HIadj ≤
      wsTestCrop.HI0 * (1 + wsTestCrop.dHI0 / 100) :=
  (harvest_index_spec ⟨[1/10], [1/10], [1/2], [2/5], [1/5], [1/10]⟩ (1/10)
    wsTestCrop hiTestCond 5 20 10
    (by norm_num [wsTestCrop]) (by norm_num [wsTestCrop]) (by norm_num [wsTestCrop])
    (by norm_num [hiTestCond]) (by norm_num [hiTestCond, wsTestCrop])
    (by norm_num [wsTestCrop]) (by norm_num [wsTestCrop])
    (by norm_num [hiTestCond]) (by norm_num [hiTestCond])
    (by norm_num [wsTestCrop]) (by norm_num [hiTestCond, wsTestCrop])).1

/-- IEEE-style floating-point value over exact rationals: a finite value, a
signed infinity, or NaN.  Rounding is not modelled; only the propagation of
non-finite values, which is what the biomass-accumulation NaN guard is
about. -/
inductive FVal where
  | fin (q : ℚ)
  | inf
  | ninf
  | nan
deriving DecidableEq

namespace FVal

/-- `np.isnan`. -/
def isNaN : FVal → Bool
  | nan => true
  | _ => false

/-- `np.isfinite`. -/
def isFinite : FVal → Bool
  | fin _ => true
  | _ => false

def neg : FVal → FVal
  | fin q => fin (-q)
  | inf => ninf
  | ninf => inf
  | nan => nan

def add : FVal → FVal → FVal
  | nan, _ => nan
  | _, nan => nan
  | fin a, fin b => fin (a + b)
  | inf, ninf => nan
  | ninf, inf => nan
  | inf, _ => inf
  | _, inf => inf
  | ninf, _ => ninf
  | _, ninf => ninf

def sub (a b : FVal) : FVal := a.add b.neg

def mul : FVal → FVal → FVal
  | nan, _ => nan
  | _, nan => nan
  | fin a, fin b => fin (a * b)
  | inf, fin b => if 0 < b then inf else if b < 0 then ninf else nan
  | fin a, inf => if 0 < a then inf else if a < 0 then ninf else nan
  | ninf, fin b => if 0 < b then ninf else if b < 0 then inf else nan
  | fin a, ninf => if 0 < a then ninf else if a < 0 then inf else nan
  | inf, inf => inf
  | inf, ninf => ninf
  | ninf, inf => ninf
  | ninf, ninf => inf

def div : FVal → FVal → FVal
  | nan, _ => nan
  | _, nan => nan
  | fin a, fin b =>
    if b = 0 then (if a = 0 then nan else if 0 < a then inf else ninf)
    else fin (a / b)
  | fin _, inf => fin 0
  | fin _, ninf => fin 0
  | inf, fin b => if b < 0 then ninf else inf
  | ninf, fin b => if b < 0 then inf else ninf
  | inf, _ => nan
  | ninf, _ => nan

/-- Strict `<` comparison; false whenever either side is NaN. -/
def lt : FVal → FVal → Bool
  | nan, _ => false
  | _, nan => false
  | fin a, fin b => decide (a < b)
  | fin _, inf => true
  | fin _, ninf => false
  | inf, _ => false
  | ninf, ninf => false
  | ninf, _ => true

theorem add_fin_zero (a : FVal) : a.add (fin 0) = a := by
  cases a <;> simp [add]

theorem fin_add_fin (a b : ℚ) : (fin a).add (fin b) = fin (a + b) := rfl

end FVal

/-- The slice of the daily condition read and written by
`biomass_accumulation`. -/
structure BiomassCond where
  DAP : ℤ
  DelayedCDs : ℤ
  HIref : FVal
  PctLagPhase : FVal
  B : FVal
  B_NS : FVal

/-- Water-productivity coefficient `WPadj` of `biomass_accumulation`
(lines 3708-3725 of `solution_aot.py`), adjusted for the reproductive stage
and CO2 effects.  The integer comparison `HIt < YldFormCD/3` is written
`3*HIt < YldFormCD` (Python true-division of integers, exact here). -/
def biomass_WPadj (Crop_CropType Crop_Determinant Crop_YldFormCD Crop_HIstartCD : ℤ)
    (Crop_WP Crop_WPy Crop_fCO2 : FVal) (InitCond : BiomassCond) : FVal :=
  let HIt := InitCond.DAP - InitCond.DelayedCDs - Crop_HIstartCD - 1
  let WPadj :=
    if (Crop_CropType = 2 ∨ Crop_CropType = 3) ∧ FVal.lt (FVal.fin 0) InitCond.HIref then
      let fswitch :=
        if Crop_Determinant = 1 then FVal.div InitCond.PctLagPhase (FVal.fin 100)
        else if 3 * HIt < Crop_YldFormCD then
          FVal.div (FVal.fin (HIt : ℚ))
            (FVal.div (FVal.fin (Crop_YldFormCD : ℚ)) (FVal.fin 3))
        else FVal.fin 1
      FVal.mul Crop_WP (FVal.sub (FVal.fin 1)
        (FVal.mul (FVal.sub (FVal.fin 1) (FVal.div Crop_WPy (FVal.fin 100))) fswitch))
    else Crop_WP
  FVal.mul WPadj Crop_fCO2

/-- Daily biomass increment `WPadj * (Tr / Et0)` (lines 3731-3733). -/
def biomass_dB (Crop_CropType Crop_Determinant Crop_YldFormCD Crop_HIstartCD : ℤ)
    (Crop_WP Crop_WPy Crop_fCO2 : FVal) (InitCond : BiomassCond) (Tr Et0 : FVal) : FVal :=
  FVal.mul (biomass_WPadj Crop_CropType Crop_Determinant Crop_YldFormCD Crop_HIstartCD
    Crop_WP Crop_WPy Crop_fCO2 InitCond) (FVal.div Tr Et0)

/-- `biomass_accumulation` (lines 3700-3745 of `solution_aot.py`): during
the growing season, add the daily increments to the cumulative totals,
zeroing the actual increment `dB` when it is NaN; outside the growing
season, reset both totals to 0. -/
def biomass_accumulation (Crop_CropType Crop_Determinant Crop_YldFormCD Crop_HIstartCD : ℤ)
    (Crop_WP Crop_WPy Crop_fCO2 : FVal) (InitCond : BiomassCond)
    (TrPot Tr Et0 : FVal) (GrowingSeason : Bool) : BiomassCond :=
  if GrowingSeason then
    let dB_NS := biomass_dB Crop_CropType Crop_Determinant Crop_YldFormCD Crop_HIstartCD
      Crop_WP Crop_WPy Crop_fCO2 InitCond TrPot Et0
    let dB := biomass_dB Crop_CropType Crop_Determinant Crop_YldFormCD Crop_HIstartCD
      Crop_WP Crop_WPy Crop_fCO2 InitCond Tr Et0
    let dB := if dB.isNaN then FVal.fin 0 else dB
    { InitCond with B := FVal.add InitCond.B dB, B_NS := FVal.add InitCond.B_NS dB_NS }
  else
    { InitCond with B := FVal.fin 0, B_NS := FVal.fin 0 }

/-- **C3 counterexample.** In the growing season with `Et0 = 0` and positive
transpiration, both daily increments are `+∞`; neither is coerced to zero
(the guard checks only `np.isnan(dB)`), so both cumulative totals become
infinite although their previous values (0) were finite. -/
theorem biomass_accumulation_counterexample :
    (biomass_accumulation 1 0 0 0 (FVal.fin 1) (FVal.fin 1) (FVal.fin 1)
      ⟨1, 0, FVal.fin 0, FVal.fin 0, FVal.fin 0, FVal.fin 0⟩
      (FVal.fin 1) (FVal.fin 1) (FVal.fin 0) true).B_NS = FVal.inf ∧
    (biomass_accumulation 1 0 0 0 (FVal.fin 1) (FVal.fin 1) (FVal.fin 1)
      ⟨1, 0, FVal.fin 0, FVal.fin 0, FVal.fin 0, FVal.fin 0⟩
      (FVal.fin 1) (FVal.fin 1) (FVal.fin 0) true).B = FVal.inf := by
  constructor <;>
    norm_num [biomass_accumulation, biomass_dB, biomass_WPadj,
      FVal.mul, FVal.div, FVal.add, FVal.lt, FVal.isNaN]

/-- **C3 (amended).** During the growing season `biomass_accumulation`
coerces only the actual increment `dB` to zero, and only when it is NaN
(e.g. `Tr = 0` and `Et0 = 0`); the no-stress increment `dB_NS` is added
with no finiteness check, and infinite increments are not coerced.
Consequently `B` stays finite whenever its previous value was finite and
`dB` is NaN or finite; no such guarantee holds for `B_NS`. -/
theorem biomass_accumulation_nan_guard
    (CropType Determinant YldFormCD HIstartCD : ℤ) (WP WPy fCO2 : FVal)
    (InitCond : BiomassCond) (TrPot Tr Et0 : FVal)
    (hnan : (biomass_dB CropType Determinant YldFormCD HIstartCD
      WP WPy fCO2 InitCond Tr Et0).isNaN = true) :
    (biomass_accumulation CropType Determinant YldFormCD HIstartCD
      WP WPy fCO2 InitCond TrPot Tr Et0 true).B = InitCond.B ∧
    (biomass_accumulation CropType Determinant YldFormCD HIstartCD
      WP WPy fCO2 InitCond TrPot Tr Et0 true).B_NS =
      FVal.add InitCond.B_NS (biomass_dB CropType Determinant YldFormCD HIstartCD
        WP WPy fCO2 InitCond TrPot Et0) := by
  constructor
  · show FVal.add InitCond.B
      (if (biomass_dB CropType Determinant YldFormCD HIstartCD
        WP WPy fCO2 InitCond Tr Et0).isNaN then FVal.fin 0
       else biomass_dB CropType Determinant YldFormCD HIstartCD
        WP WPy fCO2 InitCond Tr Et0) = InitCond.B
    rw [if_pos hnan, FVal.add_fin_zero]
  · rfl

/-- Witness for C3 (amended): `Tr = 0`, `Et0 = 0` makes `dB = 1 * (0/0)`
NaN, and `B` is left unchanged. -/
theorem biomass_accumulation_nan_guard_witness :
    (biomass_accumulation 1 0 0 0 (FVal.fin 1) (FVal.fin 1) (FVal.fin 1)
      ⟨1, 0, FVal.fin 0, FVal.fin 0, FVal.fin 7, FVal.fin 0⟩
      (FVal.fin 1) (FVal.fin 0) (FVal.fin 0) true).B = FVal.fin 7 :=
  (biomass_accumulation_nan_guard 1 0 0 0 (FVal.fin 1) (FVal.fin 1) (FVal.fin 1)
    ⟨1, 0, FVal.fin 0, FVal.fin 0, FVal.fin 7, FVal.fin 0⟩
    (FVal.fin 1) (FVal.fin 0) (FVal.fin 0)
    (by norm_num [biomass_dB, biomass_WPadj, FVal.mul, FVal.div, FVal.lt,
      FVal.isNaN])).1

end

end AquaCrop
